import Mathlib

/-!
Shallow embedding of `src/weaviate_cli/weaviate_cli.py` (a command-line
administration tool for a Weaviate vector database).

The Python program is single-threaded and makes external calls into the
weaviate client SDK, reads environment variables, a YAML config file and
interactive input, prints messages, and terminates via `exit(1)` or by
falling off `main`.  The embedding models:

  - external SDK behaviour as an `Env` record supplying an outcome
    (`Except Exc _`) for every SDK call the program can make;
  - Python exceptions as the inductive `Exc`; `exit(n)` (`SystemExit`,
    which is not a subclass of `Exception` and so is never caught by the
    program's `except` clauses) as a separate `PyResult.exited` outcome;
    an uncaught exception terminates the interpreter with exit status 1;
  - the module-level mutable `client` variable as a `Bool` state
    (`true` iff the handle is currently set);
  - observable behaviour as a trace of `Event`s: every `print` becomes a
    `Event.printMsg` carrying a constructor of `Msg` (one constructor per
    print site, carrying the interpolated values; multi-line print groups
    are bundled into a single constructor), every SDK method call becomes
    `Event.sdk`, every `.close()` invocation becomes `Event.closeCall`,
    and the assignment `client = new_client` becomes `Event.clientSet`;
  - interactive stdin (`input(...)`) as a total string supplied by the
    environment; `getpass.getpass` as a fallible environment outcome
    (the source wraps it in try/except);
  - `urlparse` (Python stdlib, external to the repo) as an environment
    outcome producing a `ParsedUrl` record (scheme/hostname/port), with
    `urlparse(None)`'s TypeError modelled as an error outcome.

Out of the model (noted where relevant): argparse itself (invocations are
modelled as an already-parsed `Args` with a subcommand present), exact
message text (messages are constructors carrying their payloads), and
Python `dict`s returned by the external `to_dict()` (modelled opaquely).
-/

/-- Python exception values, classified by the exception classes the
source program distinguishes in its `except` clauses. -/
inductive Exc where
  | valueError (msg : String)
  | typeError (msg : String)
  | wce (msg : String)          -- WeaviateConnectionError
  | wse (msg : String)          -- WeaviateStartUpError
  | wqe (msg : String)          -- WeaviateQueryException
  | other (name msg : String)   -- any other Exception subclass
deriving DecidableEq

def isWQE : Exc → Bool
  | .wqe _ => true
  | _ => false

def isWCE : Exc → Bool
  | .wce _ => true
  | _ => false

def isWSE : Exc → Bool
  | .wse _ => true
  | _ => false

def isValueErr : Exc → Bool
  | .valueError _ => true
  | _ => false

/-- The message/str() of an exception (str(e), e.message and repr are
conflated into the one string carried by the constructor). -/
def excMsg : Exc → String
  | .valueError m => m
  | .typeError m => m
  | .wce m => m
  | .wse m => m
  | .wqe m => m
  | .other _ m => m

/-- Python truthiness of an optional string: `not x` is true for both
`None` and the empty string. -/
def falsyOptStr : Option String → Bool
  | none => true
  | some s => s == ""

/-- Does the character list start with the given pattern? -/
def listStartsWith : List Char → List Char → Bool
  | _, [] => true
  | [], _ :: _ => false
  | a :: hs, b :: ps => a == b && listStartsWith hs ps

/-- Does the character list contain the pattern as a contiguous run?
(Models Python's `pat in s`.) -/
def listHasSub (pat : List Char) : List Char → Bool
  | [] => pat.isEmpty
  | a :: hs => listStartsWith (a :: hs) pat || listHasSub pat hs

/-- Models Python's substring test `pat in hay`. -/
def strHasSub (pat hay : String) : Bool :=
  listHasSub pat.toList hay.toList

/-- ASCII lowercase of one character (models Python `.lower()`; the
strings the program lowercases and compares are ASCII). -/
def lowerChar (c : Char) : Char :=
  if 'A' ≤ c && c ≤ 'Z' then Char.ofNat (c.toNat + 32) else c

/-- ASCII uppercase of one character (models Python `.upper()`). -/
def upperChar (c : Char) : Char :=
  if 'a' ≤ c && c ≤ 'z' then Char.ofNat (c.toNat - 32) else c

/-- Python `s.lower()` (ASCII). -/
def strLower (s : String) : String := String.mk (s.toList.map lowerChar)

/-- Python `s.upper()` (ASCII). -/
def strUpper (s : String) : String := String.mk (s.toList.map upperChar)

/-- Python `s.startswith(pre)`. -/
def strStartsWith (s pre : String) : Bool := listStartsWith s.toList pre.toList

/-- Splits at the first occurrence of `sep`, like Python `split(sep, 1)`
when the separator occurs; `none` when it does not (in which case the
two-target unpacking in the source raises ValueError). -/
def splitFirst (sep : Char) : List Char → Option (List Char × List Char)
  | [] => none
  | ch :: rest =>
    if ch == sep then some ([], rest)
    else match splitFirst sep rest with
      | some (a, b) => some (ch :: a, b)
      | none => none

/-- Python `s.split(sep, 1)` unpacked into two parts (`none` when `sep`
is absent and the unpacking would raise ValueError). -/
def splitOnce (sep : Char) (s : String) : Option (String × String) :=
  match splitFirst sep s.toList with
  | some (a, b) => some (String.mk a, String.mk b)
  | none => none

/-- The Weaviate v4 `DataType` enum, as used by `parse_properties_v4`:
the fifteen members the source names explicitly, plus `other` for any
further enum attribute reachable through the `getattr` fallback. -/
inductive DataType where
  | TEXT | INT | NUMBER | BOOL | DATE | UUID
  | TEXT_ARRAY | INT_ARRAY | NUMBER_ARRAY | BOOL_ARRAY | DATE_ARRAY | UUID_ARRAY
  | GEO_COORDINATES | PHONE_NUMBER | BLOB
  | other (attr : String)
deriving DecidableEq

/-- A `wvc.Property(name=..., data_type=...)` constructor call. -/
structure PropertyV4 where
  name : String
  data_type : DataType
deriving DecidableEq

/-- A property's `data_type` attribute as read back from the server
config: either a single value or a list (the source checks
`isinstance(prop.data_type, list)`). -/
inductive PDType where
  | single (s : String)
  | multi (ss : List String)
deriving DecidableEq

/-- The view of one property object inside a fetched collection config
(the attributes the source reads).  `tokenization = none` models
"attribute missing or falsy"; `vectorizer_config` carries
(str(vectorizer), vectorize_property_name) when present and truthy. -/
structure PropView where
  name : String
  data_type : PDType
  description : Option String
  index_filterable : Bool
  index_searchable : Bool
  tokenization : Option String
  vectorizer_config : Option (String × Bool)
deriving DecidableEq

/-- The view of a sharding config object; `varsRepr` opaquely models
`vars(sharding_config)`. -/
structure ShardView where
  desired_count : Int
  actual_count : Int
  desired_virtual_count : Int
  actual_virtual_count : Int
  varsRepr : String
deriving DecidableEq

/-- The view of a collection config object returned by
`collection.config.get()` (the attributes the source reads).
`properties = none` models a falsy `properties` attribute;
`inverted_repr` opaquely models `vars(inverted_index_config)`. -/
structure ConfigView where
  name : String
  description : Option String
  vectorizer : String
  vector_index_type : String
  properties : Option (List PropView)
  replication_factor : Option Int
  sharding : Option ShardView
  inverted_repr : Option String
deriving DecidableEq

/-- One element of the `properties` list in the fallback dict built by
`handle_collection_describe` (lines 359-370 of the source). -/
structure PropDict where
  name : String
  dataType : PDType
  description : Option String
  indexFilterable : Bool
  indexSearchable : Bool
  tokenization : Option String
  vectorizer_module : String
  vectorize_property_name : Bool
deriving DecidableEq

/-- The fallback `config_dict` built by `handle_collection_describe`
when `to_dict()` raises (lines 354-374 of the source). -/
structure FallbackDict where
  name : String
  description : Option String
  vectorizer : String
  vector_index_type : String
  properties : List PropDict
  replication_factor : Option Int
  sharding_vars : Option String
  inverted_vars : Option String
deriving DecidableEq

/-- The `config_dict` value passed to `json.dumps(..., indent=2)`:
either the dict returned by the external `to_dict()` (opaque) or the
fallback dict the source builds itself. -/
inductive CfgDoc where
  | ofToDict (d : String)
  | ofFallback (f : FallbackDict)
deriving DecidableEq

/-- The parsed `--vectorizer-options` JSON dict: the keys the source
reads via `.get`. -/
structure VOpts where
  model : Option String := none
  type_ : Option String := none
  truncate : Option String := none
  passageModel : Option String := none
  queryModel : Option String := none
  optionsRepr : Option String := none
  vectorizeClassName : Option Bool := none
deriving DecidableEq

/-- The vectorizer config object constructed by
`handle_collection_create` (lines 236-258 of the source). -/
inductive VecCfg where
  | openai (model ty : Option String) (vcn : Bool)
  | cohere (model truncate : Option String) (vcn : Bool)
  | huggingface (model passageModel queryModel : Option String)
      (srcProps : Option (List String)) (optionsRepr : Option String) (vcn : Bool)
  | noneVec
deriving DecidableEq

/-- A permission object built in `handle_role_create`:
`Permissions.collections(...)` or `Permissions.data(...)`. -/
inductive PermSpec where
  | collections (patterns : List String) (create read update delete : Bool)
  | dataPerm (patterns : List String) (create read update delete : Bool)
deriving DecidableEq

/-- A role object as returned by `client.roles.get`: name plus the
permission reprs the source prints. -/
structure RoleView where
  name : String
  permissions : List String
deriving DecidableEq

/-- One element of `client.roles.list_all()`'s result: a Role object
(has `.name`), a plain name string, or an unrecognized value. -/
inductive RoleItem where
  | robj (name : String) (permissions : List String)
  | rstr (name : String)
  | rother (reprStr : String)
deriving DecidableEq

/-- One element of `client.users.db.get_assigned_roles(...)`'s result:
a string, an object with `.name`, or something else. -/
inductive RItem where
  | rstr (s : String)
  | robj (name reprStr : String)
  | rother (reprStr : String)
deriving DecidableEq

def ritemIsStr : RItem → Bool
  | .rstr _ => true
  | _ => false

def ritemHasName : RItem → Bool
  | .robj _ _ => true
  | _ => false

/-- Python `str(r)` on a roles item. -/
def ritemStr : RItem → String
  | .rstr s => s
  | .robj _ r => r
  | .rother r => r

def ritemName : RItem → Option String
  | .robj n _ => some n
  | _ => none

/-- The object returned by `client.users.db.create`: `.key` when the
attribute exists, and its `str()` otherwise. -/
structure ApiKeyObj where
  key : Option String
  reprStr : String
deriving DecidableEq

/-- The fixed `wc_config.AdditionalConfig(timeout=(20, 120),
startup_period=30)` record. -/
structure AddCfg where
  timeout : Int × Int
  startup_period : Int
deriving DecidableEq

/-- The keyword arguments of the `weaviate.connect_to_custom` call. -/
structure ConnectParams where
  http_host : String
  http_port : Int
  http_secure : Bool
  grpc_host : String
  grpc_port : Int
  grpc_secure : Bool
  auth_key : Option String
  additional_config : AddCfg
deriving DecidableEq

/-- The SDK method calls the program can issue (beyond prints). -/
inductive SDKCall where
  | connectToCustom (p : ConnectParams)
  | isReadyCall
  | isLiveCall
  | collectionsExists (name : String)
  | collectionsCreate (name description : String) (props : Option (List PropertyV4))
      (vcfg : Option VecCfg) (repl shards : Option Int)
  | collectionsDelete (name : String)
  | collectionsListAll (simple : Bool)
  | collectionsGet (name : String)
  | configGet (name : String)
  | usersListAll
  | usersCreate (user : String)
  | usersDelete (user : String)
  | usersAssignRoles (user : String) (roles : List String)
  | usersGetRoles (user : String)
  | rolesExists (name : String)
  | rolesCreate (name : String) (perms : List PermSpec)
  | rolesDelete (name : String)
  | rolesGet (name : String)
  | rolesListAll

/-- One constructor per print site of the source (groups of consecutive
prints about one subject are bundled), carrying the interpolated data. -/
inductive Msg where
  | clientVersion (v : String)
  | clientVersionWarn
  | loadedCfg (path : String)
  | cfgNotFound (path : String)
  | cfgYamlErr (path msg : String)
  | cfgLoadErr (path msg : String)
  | usingExisting
  | attemptConnect (url : Option String)
  | closingPreexisting
  | httpInfo (host : String) (port : Int) (secure : Bool)
  | grpcInfo (host : String) (port : Int) (secure : Bool)
  | notReady
  | liveStatus (b : Bool)
  | noLiveStatus (e : Exc)
  | connectedOk
  | urlParamErr (e : Exc)
  | wceReport (e : Exc)
  | wseReport (e : Exc)
  | unexpectedConnErr (e : Exc)
  | connClosed
  | closeErr (e : Exc)
  | propFormatWarn (entry : String)
  | propTypeWarn (dt name : String)
  | attemptCreateColl (name : String)
  | collAlreadyExists (name : String)
  | unknownVectorizer (v : String)
  | collCreated (name : String)
  | collCreateErr (name : String) (e : Exc)
  | unexpectedErr (e : Exc)
  | collDeleteConfirmCancelled
  | attemptDeleteColl (name : String)
  | collDeleted (name : String)
  | collDeleteErr (name : String) (e : Exc)
  | fetchingCollections
  | collectionsHeader
  | collNameHeader (name : String)
  | collDetail (name : String) (cfg : ConfigView)
  | collDetailErr (name : String) (e : Exc)
  | collBullet (name : String)
  | noCollections
  | listCollErr (e : Exc)
  | fetchingCollection (name : String)
  | collNotExists (name : String)
  | jsonOut (doc : CfgDoc)
  | describeErr (name : String) (e : Exc)
  | describeUnexpected (name : String) (e : Exc)
  | attemptCreateKey (user : String)
  | keyExistsUseRecreate (user : String)
  | deletingExistingKey (user : String)
  | deletedExistingKey (user : String)
  | deleteKeyWarn (user : String) (e : Exc)
  | keyCreated (user key : String)
  | assigningRoles (user : String) (roles : List String)
  | assignedRoles (user : String)
  | noRolesToAssign (user : String)
  | userProcErr (user : String) (e : Exc)
  | userProcUnexpected (user : String) (e : Exc)
  | userDeleteCancelled
  | attemptDeleteUser (user : String)
  | userDeleted (user : String)
  | userNotFound (user : String)
  | userDeleteErr (user : String) (e : Exc)
  | fetchingUsers
  | usersHeader
  | rolesFormatWarn (user : String)
  | rolesFetchErr (user : String) (e : Exc)
  | userLine (user : String) (roles : List String)
  | noUsers
  | listUsersErr (e : Exc)
  | settingRoles (user : String) (roles : List String)
  | rolesSet (user : String) (roles : List String)
  | setRolesErr (user : String) (e : Exc)
  | attemptCreateRole (name : String)
  | roleAlreadyExists (name : String)
  | constructedPerms (name : String) (perms : List PermSpec)
  | roleCreated (name : String)
  | roleCreateErr (name : String) (e : Exc)
  | roleCreateUnexpected (name : String) (e : Exc)
  | roleDeleteCancelled
  | attemptDeleteRole (name : String)
  | roleDeleted (name : String)
  | roleNotFoundDel (name : String)
  | roleDeleteErr (name : String) (e : Exc)
  | fetchingRole (name : String)
  | roleInfo (r : RoleView)
  | roleNotFoundNone (name : String)
  | roleNotFound (name : String)
  | roleFetchErr (name : String) (e : Exc)
  | fetchingRoles
  | rolesHeader
  | roleDetailErr (name : String) (e : Exc)
  | roleNameLine (name : String)
  | rolePermsLine (perms : List String)
  | unrecognizedRoleItem (reprStr : String)
  | noRoles
  | listRolesErr (e : Exc)
  | keyNotProvided
  | keyReadErr (e : Exc)
  | keyRequired

/-- Observable events of a run. -/
inductive Event where
  | printMsg (m : Msg)
  | sdk (c : SDKCall)
  | clientSet
  | closeCall
  | inputRead
  | promptKey

/-- The outcome of running a piece of Python code: normal value,
`SystemExit` from `exit(n)` (never caught by the program's `except`
clauses), or an uncaught exception. -/
inductive PyResult (α : Type) where
  | ok (a : α)
  | exited (code : Nat)
  | raised (e : Exc)
deriving DecidableEq

/-- The result of a computation: outcome, the module-level `client`
handle state (true iff set), and the emitted event trace. -/
structure Step (α : Type) where
  res : PyResult α
  client : Bool
  trace : List Event

/-- The embedding's computation type: a function of the incoming
`client` handle state. -/
def CliM (α : Type) : Type := Bool → Step α

def CliM.pure {α : Type} (a : α) : CliM α := fun c => ⟨.ok a, c, []⟩

def CliM.bind {α β : Type} (m : CliM α) (k : α → CliM β) : CliM β := fun c =>
  let s := m c
  match s.res with
  | .ok a =>
    let t := k a s.client
    ⟨t.res, t.client, s.trace ++ t.trace⟩
  | .exited n => ⟨.exited n, s.client, s.trace⟩
  | .raised e => ⟨.raised e, s.client, s.trace⟩

instance : Monad CliM where
  pure := CliM.pure
  bind := CliM.bind

/-- Emit one event. -/
def emit (e : Event) : CliM Unit := fun c => ⟨.ok (), c, [e]⟩

/-- `print(...)`. -/
def emitM (m : Msg) : CliM Unit := emit (Event.printMsg m)

/-- `raise e` (or an external call raising). -/
def raiseE {α : Type} (e : Exc) : CliM α := fun c => ⟨.raised e, c, []⟩

/-- `exit(n)`. -/
def exitP {α : Type} (n : Nat) : CliM α := fun c => ⟨.exited n, c, []⟩

/-- Read the module-level `client` state. -/
def getClient : CliM Bool := fun c => ⟨.ok c, c, []⟩

/-- `client = new_client` (records the `clientSet` event). -/
def setClientOn : CliM Unit := fun _ => ⟨.ok (), true, [Event.clientSet]⟩

/-- `client = None`. -/
def clearClient : CliM Unit := fun _ => ⟨.ok (), false, []⟩

/-- Lift a fallible external outcome into the computation. -/
def liftExc {α : Type} (r : Except Exc α) : CliM α := fun c =>
  match r with
  | .ok a => ⟨.ok a, c, []⟩
  | .error e => ⟨.raised e, c, []⟩

/-- Issue one SDK method call whose outcome the environment supplies. -/
def sdkOp {α : Type} (call : SDKCall) (r : Except Exc α) : CliM α := fun c =>
  match r with
  | .ok a => ⟨.ok a, c, [Event.sdk call]⟩
  | .error e => ⟨.raised e, c, [Event.sdk call]⟩

/-- `try: body except ...: handler e` — every `try` statement in the
source ends in a bare `except Exception`, so handlers are total.
`exit(n)` (SystemExit) is not caught. -/
def pyTry {α : Type} (body : CliM α) (handler : Exc → CliM α) : CliM α := fun c =>
  let s := body c
  match s.res with
  | .raised e =>
    let t := handler e s.client
    ⟨t.res, t.client, s.trace ++ t.trace⟩
  | _ => s

/-- `try: body finally: fin` — `fin` always runs; an abnormal outcome of
`fin` replaces the body's outcome (Python semantics). -/
def pyFinally {α : Type} (body : CliM α) (fin : CliM Unit) : CliM α := fun c =>
  let s := body c
  let f := fin s.client
  match f.res with
  | .ok _ => ⟨s.res, f.client, s.trace ++ f.trace⟩
  | .exited n => ⟨.exited n, f.client, s.trace ++ f.trace⟩
  | .raised e => ⟨.raised e, f.client, s.trace ++ f.trace⟩

/-- The result of Python's `urlparse` on the URL string: the attributes
the source reads (`scheme`, `hostname`, `port`). -/
structure ParsedUrl where
  scheme : String
  hostname : Option String
  port : Option Int
deriving DecidableEq

/-- Failure modes of reading the YAML config file, matching the three
`except` clauses of `load_config_from_yaml`. -/
inductive LoadErr where
  | fileNotFound
  | yamlError (msg : String)
  | otherErr (msg : String)
deriving DecidableEq

/-- The YAML config file contents: the keys `main` reads via `.get`.
A key absent from the file and a key present with a null value are
conflated as `none` (Python `dict.get` would distinguish them only for
`api_key`, where a stored null would also suppress the `root_key`
fallback; no claim depends on that corner). -/
structure Config where
  weaviate_url : Option String := none
  api_key : Option String := none
  root_key : Option String := none
  grpc_host : Option String := none
  grpc_port : Option Int := none
deriving DecidableEq

/-- The external world: one outcome per external call the program can
make during a single invocation.  Function-valued fields supply
per-argument outcomes for calls made inside loops. -/
structure Env where
  clientVersionStr : String
  yamlLoad : Except LoadErr (Option Config)
  envApiKey : Option String
  envRootKey : Option String
  getpassRes : Except Exc String
  confirmInput : String
  existingConnected : Bool
  existingReady : Bool
  urlParse : Except Exc ParsedUrl
  connectRes : Except Exc Unit
  isReadyRes : Except Exc Bool
  isLiveRes : Except Exc Bool
  closeRes : Except Exc Unit
  sdkGetattr : String → Option DataType
  collExistsRes : Except Exc Bool
  collCreateRes : Except Exc Unit
  collDeleteRes : Except Exc Unit
  collListRes : Except Exc (List String)
  collCfgFor : String → Except Exc ConfigView
  collGetRes : Except Exc Unit
  toDictRes : Except Exc String
  usersListRes : Except Exc (List String)
  usersCreateRes : Except Exc ApiKeyObj
  usersDeleteRes : Except Exc Unit
  assignRolesRes : Except Exc Unit
  userRolesFor : String → Except Exc (List RItem)
  roleExistsRes : Except Exc Bool
  roleCreateRes : Except Exc Unit
  roleDeleteRes : Except Exc Unit
  roleGetRes : Except Exc (Option RoleView)
  roleGetFor : String → Except Exc (Option RoleView)
  rolesListRes : Except Exc (List RoleItem)

/-- The parsed subcommand (`argparse` itself is out of scope: an
invocation is modelled with the two-level subcommand present and its
required flags supplied, which argparse guarantees before `main`'s
merging code runs). -/
inductive Cmd where
  | collCreate (name description : String) (property : Option (List String))
      (vectorizer : Option String) (vopts : Option VOpts)
      (vsrc : Option (List String)) (replication_factor shards : Option Int)
  | collDelete (name : String)
  | collList (detailed : Bool)
  | collDescribe (name : String)
  | userCreate (user_id : String) (role : Option (List String))
  | userDelete (user_id : String)
  | userList
  | userUpdateRoles (user_id : String) (role : Option (List String))
  | roleCreate (role_name : String) (collection_pattern : List String)
      (adC adR adU adD acC acR acU acD : Bool)
  | roleDelete (role_name : String)
  | roleGet (role_name : String)
  | roleList (detailed : Bool)

/-- The argparse namespace after parsing: the global connection flags
(later overwritten by `main`'s merging), the global
`--recreate-api-key` flag, and the subcommand. -/
structure Args where
  url : Option String
  root_key : Option String
  grpc_host : Option String
  grpc_port : Option Int
  config_file : Option String
  recreate_api_key : Bool
  cmd : Cmd

/-- `print_client_version` (source lines 22-29). -/
def print_client_version (env : Env) : CliM Unit := do
  emitM (.clientVersion env.clientVersionStr)
  if !(strStartsWith env.clientVersionStr "4.") then
    emitM .clientVersionWarn

/-- `load_config_from_yaml` (source lines 32-47): every failure is
caught and an empty config returned; an empty YAML document also gives
an empty config (`config if config else {}`). -/
def load_config_from_yaml (env : Env) (file_path : String) : CliM Config :=
  match env.yamlLoad with
  | .ok (some config) => do emitM (.loadedCfg file_path); pure config
  | .ok none => do emitM (.loadedCfg file_path); pure {}
  | .error .fileNotFound => do emitM (.cfgNotFound file_path); pure {}
  | .error (.yamlError m) => do emitM (.cfgYamlErr file_path m); pure {}
  | .error (.otherErr m) => do emitM (.cfgLoadErr file_path m); pure {}

/-- `parse_http_url_details` (source lines 49-69), over the `urlparse`
result.  Python's `if not http_port` treats port 0 like a missing port. -/
def parse_http_url_details (u : ParsedUrl) : Except Exc (String × Int × Bool) :=
  let http_scheme := strLower u.scheme
  if http_scheme != "http" && http_scheme != "https" then
    .error (.valueError "Invalid URL scheme")
  else
    let http_secure := http_scheme == "https"
    match u.hostname with
    | none => .error (.valueError "Could not determine host from URL")
    | some h =>
      if h == "" then .error (.valueError "Could not determine host from URL")
      else
        let http_port : Int :=
          match u.port with
          | some p => if p == 0 then (if http_secure then 443 else 80) else p
          | none => if http_secure then 443 else 80
        .ok (h, http_port, http_secure)

/-- Source line 97: `cli_grpc_host if cli_grpc_host else http_host`
(Python truthiness: an empty string also falls back). -/
def grpcHostOf (cli_grpc_host : Option String) (http_host : String) : String :=
  match cli_grpc_host with
  | some h => if h == "" then http_host else h
  | none => http_host

/-- Source line 98: `cli_grpc_port if cli_grpc_port is not None else 50051`. -/
def grpcPortOf (cli_grpc_port : Option Int) : Int :=
  match cli_grpc_port with
  | some p => p
  | none => 50051

/-- Source lines 100-105: the gRPC secure flag. -/
def grpcSecureOf (cli_grpc_port : Option Int) (http_secure : Bool) : Bool :=
  match cli_grpc_port with
  | some p => if p == 443 then true else if p == 80 then false else http_secure
  | none => http_secure

/-- `if client: client.close()` inside the connect error handlers
(the close itself may raise, which would propagate). -/
def closeIfSet (env : Env) : CliM Unit := fun c =>
  if c then
    match env.closeRes with
    | .ok _ => ⟨.ok (), c, [Event.closeCall]⟩
    | .error e => ⟨.raised e, c, [Event.closeCall]⟩
  else ⟨.ok (), c, []⟩

/-- An unconditional `.close()` call on a client object. -/
def closeNewClient (env : Env) : CliM Unit := fun c =>
  match env.closeRes with
  | .ok _ => ⟨.ok (), c, [Event.closeCall]⟩
  | .error e => ⟨.raised e, c, [Event.closeCall]⟩

/-- The `except` chain of `connect_to_weaviate` (source lines 140-167):
ValueError, WeaviateConnectionError, WeaviateStartUpError, then a bare
Exception; each prints, closes the module client if set, clears it and
calls `exit(1)`. -/
def connectExcHandler (env : Env) (e : Exc) : CliM Unit :=
  if isValueErr e then do
    emitM (.urlParamErr e); closeIfSet env; clearClient; exitP 1
  else if isWCE e then do
    emitM (.wceReport e); closeIfSet env; clearClient; exitP 1
  else if isWSE e then do
    emitM (.wseReport e); closeIfSet env; clearClient; exitP 1
  else do
    emitM (.unexpectedConnErr e); closeIfSet env; clearClient; exitP 1

/-- The `try` block of `connect_to_weaviate` (source lines 89-138):
close a pre-existing client, parse the URL, derive the gRPC
parameters, issue the connect and readiness calls, and either exit on
a not-ready instance or set the module client handle.
`auth_credentials` is computed before the try (line 82-84) and passed
in. -/
def connectTryBody (env : Env) (auth_credentials : Option String)
    (cli_grpc_host : Option String) (cli_grpc_port : Option Int) : CliM Unit := do
  let c2 ← getClient
  if c2 then do
    emitM .closingPreexisting
    closeNewClient env
    clearClient
  let parsed ← liftExc env.urlParse
  let (http_host, http_port, http_secure) ← liftExc (parse_http_url_details parsed)
  let grpc_host_to_use := grpcHostOf cli_grpc_host http_host
  let grpc_port_to_use := grpcPortOf cli_grpc_port
  let grpc_secure_to_use := grpcSecureOf cli_grpc_port http_secure
  emitM (.httpInfo http_host http_port http_secure)
  emitM (.grpcInfo grpc_host_to_use grpc_port_to_use grpc_secure_to_use)
  let additional_config : AddCfg := ⟨(20, 120), 30⟩
  sdkOp (.connectToCustom ⟨http_host, http_port, http_secure,
    grpc_host_to_use, grpc_port_to_use, grpc_secure_to_use,
    auth_credentials, additional_config⟩) env.connectRes
  let ready ← sdkOp .isReadyCall env.isReadyRes
  if !ready then do
    emitM .notReady
    pyTry (do
        let live ← sdkOp .isLiveCall env.isLiveRes
        emitM (.liveStatus live))
      (fun le => emitM (.noLiveStatus le))
    closeNewClient env
    exitP 1
  else do
    setClientOn
    emitM .connectedOk

/-- `connect_to_weaviate` (source lines 71-167). -/
def connect_to_weaviate (env : Env) (url api_key : Option String)
    (cli_grpc_host : Option String) (cli_grpc_port : Option Int) : CliM Unit := do
  let c ← getClient
  if c && env.existingConnected && env.existingReady then
    emitM .usingExisting
  else do
    emitM (.attemptConnect url)
    let auth_credentials := if falsyOptStr api_key then none else api_key
    pyTry (connectTryBody env auth_credentials cli_grpc_host cli_grpc_port)
      (connectExcHandler env)

/-- `close_connection` (source lines 169-179): if the module client is
set, a close call is issued; any exception from the close is caught and
printed; the handle is cleared in all cases (`finally`). -/
def close_connection (env : Env) : CliM Unit := fun c =>
  if c then
    match env.closeRes with
    | .ok _ => ⟨.ok (), false, [Event.closeCall, Event.printMsg .connClosed]⟩
    | .error e => ⟨.ok (), false, [Event.closeCall, Event.printMsg (.closeErr e)]⟩
  else ⟨.ok (), c, []⟩

/-- The explicit data-type dispatch of `parse_properties_v4` (source
lines 191-211): fifteen named members, then a `getattr` fallback on the
SDK enum, modelled by the environment's `sdkGetattr`. -/
def dataTypeOfUpper (sdkAttr : String → Option DataType) (u : String) : Option DataType :=
  if u == "TEXT" then some .TEXT
  else if u == "INT" then some .INT
  else if u == "NUMBER" then some .NUMBER
  else if u == "BOOL" then some .BOOL
  else if u == "DATE" then some .DATE
  else if u == "UUID" then some .UUID
  else if u == "TEXT_ARRAY" then some .TEXT_ARRAY
  else if u == "INT_ARRAY" then some .INT_ARRAY
  else if u == "NUMBER_ARRAY" then some .NUMBER_ARRAY
  else if u == "BOOL_ARRAY" then some .BOOL_ARRAY
  else if u == "DATE_ARRAY" then some .DATE_ARRAY
  else if u == "UUID_ARRAY" then some .UUID_ARRAY
  else if u == "GEO_COORDINATES" then some .GEO_COORDINATES
  else if u == "PHONE_NUMBER" then some .PHONE_NUMBER
  else if u == "BLOB" then some .BLOB
  else sdkAttr u

/-- The loop of `parse_properties_v4` (source lines 186-216): collected
properties in input order, plus the skip-warnings in input order. -/
def parsePropsLoop (sdkAttr : String → Option DataType) :
    List String → List PropertyV4 × List Msg
  | [] => ([], [])
  | prop_str :: rest =>
    let acc := parsePropsLoop sdkAttr rest
    match splitOnce ':' prop_str with
    | none => (acc.1, Msg.propFormatWarn prop_str :: acc.2)
    | some (name, data_type_str) =>
      match dataTypeOfUpper sdkAttr (strUpper data_type_str) with
      | none => (acc.1, Msg.propTypeWarn data_type_str name :: acc.2)
      | some dt => (⟨name, dt⟩ :: acc.1, acc.2)

/-- `parse_properties_v4` (source lines 181-217): the returned value and
the warnings it prints.  `None` and an empty list return `none`
(`if not props_str_list`), as does a list with no valid entry
(`properties if properties else None`). -/
def parse_properties_v4 (sdkAttr : String → Option DataType)
    (props_str_list : Option (List String)) : Option (List PropertyV4) × List Msg :=
  match props_str_list with
  | none => (none, [])
  | some l =>
    if l.isEmpty then (none, [])
    else
      let acc := parsePropsLoop sdkAttr l
      (if acc.1.isEmpty then none else some acc.1, acc.2)

/-- Emit a list of prints in order. -/
def emitWarnings : List Msg → CliM Unit
  | [] => pure ()
  | m :: rest => do emitM m; emitWarnings rest

/-- `input(...)`: interactive stdin is modelled as total. -/
def readInput (env : Env) : CliM String := fun c =>
  ⟨.ok env.confirmInput, c, [Event.inputRead]⟩

/-- `getpass.getpass(...)` (fallible; the source wraps it in a try). -/
def promptKeyM (env : Env) : CliM String := fun c =>
  match env.getpassRes with
  | .ok s => ⟨.ok s, c, [Event.promptKey]⟩
  | .error e => ⟨.raised e, c, [Event.promptKey]⟩

/-- The vectorizer-config construction of `handle_collection_create`
(source lines 231-260); the unknown-vectorizer branch prints a warning. -/
def vecCfgOf (vectorizer : Option String) (vopts : Option VOpts)
    (vsrc : Option (List String)) : CliM (Option VecCfg) :=
  match vectorizer with
  | none => pure none
  | some v =>
    if v == "" then pure none
    else
      let vectorizer_name := strLower v
      let vo := vopts.getD {}
      if vectorizer_name == "text2vec-openai" then
        pure (some (.openai vo.model vo.type_ (vo.vectorizeClassName.getD true)))
      else if vectorizer_name == "text2vec-cohere" then
        pure (some (.cohere vo.model vo.truncate (vo.vectorizeClassName.getD true)))
      else if vectorizer_name == "text2vec-huggingface" then
        pure (some (.huggingface vo.model vo.passageModel vo.queryModel vsrc
          vo.optionsRepr (vo.vectorizeClassName.getD true)))
      else if vectorizer_name == "none" then
        pure (some .noneVec)
      else do
        emitM (.unknownVectorizer v)
        pure none

/-- Post-connect body of `handle_collection_create` (source lines
223-286).  The existence check (line 225) happens OUTSIDE the
function's try statement: an exception it raises propagates out of the
handler. -/
def collCreateBody (env : Env) (name description : String)
    (property : Option (List String)) (vectorizer : Option String)
    (vopts : Option VOpts) (vsrc : Option (List String))
    (replication_factor shards : Option Int) : CliM Unit := do
  emitM (.attemptCreateColl name)
  let ex ← sdkOp (.collectionsExists name) env.collExistsRes
  if ex then
    emitM (.collAlreadyExists name)
  else do
    let pp := parse_properties_v4 env.sdkGetattr property
    emitWarnings pp.2
    let properties := pp.1
    let vectorizer_config ← vecCfgOf vectorizer vopts vsrc
    let replication_config := replication_factor
    let sharding_config := shards
    pyTry (do
        sdkOp (.collectionsCreate name description properties vectorizer_config
          replication_config sharding_config) env.collCreateRes
        emitM (.collCreated name))
      (fun e =>
        if isWQE e || isWCE e then emitM (.collCreateErr name e)
        else emitM (.unexpectedErr e))

/-- Post-connect body of `handle_collection_delete` (source lines
292-303). -/
def collDeleteBody (env : Env) (name : String) : CliM Unit := do
  let confirm ← readInput env
  if strLower confirm != "yes" then
    emitM .collDeleteConfirmCancelled
  else do
    emitM (.attemptDeleteColl name)
    pyTry (do
        sdkOp (.collectionsDelete name) env.collDeleteRes
        emitM (.collDeleted name))
      (fun e =>
        if isWQE e then emitM (.collDeleteErr name e)
        else emitM (.unexpectedErr e))

/-- The per-collection loop of `handle_collection_list` (source lines
314-330); the detailed branch fetches the full config inside an inner
try and its per-collection prints are bundled into `Msg.collDetail`. -/
def collListLoop (env : Env) (detailed : Bool) : List String → CliM Unit
  | [] => pure ()
  | n :: rest =>
    (if detailed then do
        emitM (.collNameHeader n)
        pyTry (do
            let config ← sdkOp (.configGet n) (env.collCfgFor n)
            emitM (.collDetail n config))
          (fun e => emitM (.collDetailErr n e))
      else
        emitM (.collBullet n)) >>= fun _ =>
    collListLoop env detailed rest

/-- Post-connect body of `handle_collection_list` (source lines
308-336). -/
def collListBody (env : Env) (detailed : Bool) : CliM Unit := do
  emitM .fetchingCollections
  pyTry (do
      let collections_dict ← sdkOp (.collectionsListAll (!detailed)) env.collListRes
      if !collections_dict.isEmpty then do
        emitM .collectionsHeader
        collListLoop env detailed collections_dict
      else
        emitM .noCollections)
    (fun e =>
      if isWQE e || isWCE e then emitM (.listCollErr e)
      else emitM (.unexpectedErr e))

/-- One property entry of the fallback dict (source lines 360-369). -/
def propDictOf (p : PropView) : PropDict :=
  { name := p.name
  , dataType := p.data_type
  , description := p.description
  , indexFilterable := p.index_filterable
  , indexSearchable := p.index_searchable
  , tokenization := p.tokenization
  , vectorizer_module :=
      match p.vectorizer_config with
      | some vc => vc.1
      | none => "default"
  , vectorize_property_name :=
      match p.vectorizer_config with
      | some vc => vc.2
      | none => false }

/-- The fallback `config_dict` of `handle_collection_describe` (source
lines 354-374), built when `to_dict()` raises. -/
def fallbackOf (v : ConfigView) : FallbackDict :=
  { name := v.name
  , description := v.description
  , vectorizer := v.vectorizer
  , vector_index_type := v.vector_index_type
  , properties :=
      match v.properties with
      | some ps => ps.map propDictOf
      | none => []
  , replication_factor := v.replication_factor
  , sharding_vars := v.sharding.map ShardView.varsRepr
  , inverted_vars := v.inverted_repr }

/-- Post-connect body of `handle_collection_describe` (source lines
341-380): existence check, config fetch, `to_dict()` with the inner
try's fallback dict, then `print(json.dumps(config_dict, indent=2))`
modelled as `Msg.jsonOut`. -/
def collDescribeBody (env : Env) (name : String) : CliM Unit := do
  emitM (.fetchingCollection name)
  pyTry (do
      let ex ← sdkOp (.collectionsExists name) env.collExistsRes
      if !ex then
        emitM (.collNotExists name)
      else do
        sdkOp (.collectionsGet name) env.collGetRes
        let collection_config ← sdkOp (.configGet name) (env.collCfgFor name)
        let config_dict :=
          match env.toDictRes with
          | .ok d => CfgDoc.ofToDict d
          | .error _ => CfgDoc.ofFallback (fallbackOf collection_config)
        emitM (.jsonOut config_dict))
    (fun e =>
      if isWQE e || isWCE e then emitM (.describeErr name e)
      else emitM (.describeUnexpected name e))

/-- Post-connect body of `handle_user_create` (source lines 387-422). -/
def userCreateBody (env : Env) (user_id : String) (role : Option (List String))
    (recreate_api_key : Bool) : CliM Unit := do
  let roles_to_assign := role.getD []
  emitM (.attemptCreateKey user_id)
  pyTry ((sdkOp .usersListAll env.usersListRes) >>= fun existing_keys =>
      ((if existing_keys.contains user_id && !recreate_api_key then
          emitM (.keyExistsUseRecreate user_id)
        else
          ((if existing_keys.contains user_id && recreate_api_key then do
              emitM (.deletingExistingKey user_id)
              pyTry (do
                  sdkOp (.usersDelete user_id) env.usersDeleteRes
                  emitM (.deletedExistingKey user_id))
                (fun e => emitM (.deleteKeyWarn user_id e))
            else
              pure ()) >>= fun _ =>
           (sdkOp (.usersCreate user_id) env.usersCreateRes) >>= fun new_api_key_obj =>
           emitM (.keyCreated user_id
             (match new_api_key_obj.key with
              | some k => k
              | none => new_api_key_obj.reprStr)))) >>= fun _ =>
       (if !roles_to_assign.isEmpty then do
          emitM (.assigningRoles user_id roles_to_assign)
          sdkOp (.usersAssignRoles user_id roles_to_assign) env.assignRolesRes
          emitM (.assignedRoles user_id)
        else
          emitM (.noRolesToAssign user_id))))
    (fun e =>
      if isWQE e then emitM (.userProcErr user_id e)
      else emitM (.userProcUnexpected user_id e))

/-- Post-connect body of `handle_user_delete` (source lines 428-445). -/
def userDeleteBody (env : Env) (user_id : String) : CliM Unit := do
  let confirm ← readInput env
  if strLower confirm != "yes" then
    emitM .userDeleteCancelled
  else do
    emitM (.attemptDeleteUser user_id)
    pyTry (do
        sdkOp (.usersDelete user_id) env.usersDeleteRes
        emitM (.userDeleted user_id))
      (fun e =>
        if isWQE e then
          if strHasSub "not found" (strLower (excMsg e)) then
            emitM (.userNotFound user_id)
          else
            emitM (.userDeleteErr user_id e)
        else emitM (.unexpectedErr e))

/-- The per-user loop of `handle_user_list` (source lines 455-471):
fetch the user's roles inside an inner try, normalize the three
possible result shapes, then print the user line. -/
def userListLoop (env : Env) : List String → CliM Unit
  | [] => pure ()
  | user_id :: rest => do
    let assigned_roles ← pyTry (do
        let roles_data ← sdkOp (.usersGetRoles user_id) (env.userRolesFor user_id)
        if roles_data.isEmpty then
          pure []
        else if roles_data.all ritemIsStr then
          pure (roles_data.map ritemStr)
        else if roles_data.all ritemHasName then
          pure (roles_data.filterMap ritemName)
        else do
          emitM (.rolesFormatWarn user_id)
          pure (roles_data.map ritemStr))
      (fun e => do
        emitM (.rolesFetchErr user_id e)
        pure [])
    emitM (.userLine user_id assigned_roles)
    userListLoop env rest

/-- Post-connect body of `handle_user_list` (source lines 450-477). -/
def userListBody (env : Env) : CliM Unit := do
  emitM .fetchingUsers
  pyTry (do
      let api_keys_list ← sdkOp .usersListAll env.usersListRes
      if !api_keys_list.isEmpty then do
        emitM .usersHeader
        userListLoop env api_keys_list
      else
        emitM .noUsers)
    (fun e =>
      if isWQE e || isWCE e then emitM (.listUsersErr e)
      else emitM (.unexpectedErr e))

/-- Post-connect body of `handle_user_update_roles` (source lines
482-495). -/
def userUpdateRolesBody (env : Env) (user_id : String)
    (role : Option (List String)) : CliM Unit := do
  let new_roles := role.getD []
  emitM (.settingRoles user_id new_roles)
  pyTry (do
      sdkOp (.usersAssignRoles user_id new_roles) env.assignRolesRes
      emitM (.rolesSet user_id new_roles))
    (fun e =>
      if isWQE e then emitM (.setRolesErr user_id e)
      else emitM (.unexpectedErr e))

/-- Post-connect body of `handle_role_create` (source lines 501-537);
the existence check is INSIDE the try here, unlike collection create. -/
def roleCreateBody (env : Env) (role_name : String)
    (collection_pattern : List String)
    (adC adR adU adD acC acR acU acD : Bool) : CliM Unit := do
  emitM (.attemptCreateRole role_name)
  pyTry (do
      let ex ← sdkOp (.rolesExists role_name) env.roleExistsRes
      if ex then
        emitM (.roleAlreadyExists role_name)
      else do
        let permissions_list : List PermSpec :=
          [ PermSpec.collections collection_pattern acC acR acU acD
          , PermSpec.dataPerm collection_pattern adC adR adU adD ]
        emitM (.constructedPerms role_name permissions_list)
        sdkOp (.rolesCreate role_name permissions_list) env.roleCreateRes
        emitM (.roleCreated role_name))
    (fun e =>
      if isWQE e then emitM (.roleCreateErr role_name e)
      else emitM (.roleCreateUnexpected role_name e))

/-- Post-connect body of `handle_role_delete` (source lines 543-557). -/
def roleDeleteBody (env : Env) (role_name : String) : CliM Unit := do
  let confirm ← readInput env
  if strLower confirm != "yes" then
    emitM .roleDeleteCancelled
  else do
    emitM (.attemptDeleteRole role_name)
    pyTry (do
        sdkOp (.rolesDelete role_name) env.roleDeleteRes
        emitM (.roleDeleted role_name))
      (fun e =>
        if isWQE e then
          if strHasSub "not found" (strLower (excMsg e)) then
            emitM (.roleNotFoundDel role_name)
          else
            emitM (.roleDeleteErr role_name e)
        else emitM (.unexpectedErr e))

/-- Post-connect body of `handle_role_get` (source lines 562-581);
the role's name/permission prints are bundled into `Msg.roleInfo`. -/
def roleGetBody (env : Env) (role_name : String) : CliM Unit := do
  emitM (.fetchingRole role_name)
  pyTry (do
      let role ← sdkOp (.rolesGet role_name) env.roleGetRes
      match role with
      | some r => emitM (.roleInfo r)
      | none => emitM (.roleNotFoundNone role_name))
    (fun e =>
      if isWQE e then
        if strHasSub "not found" (strLower (excMsg e)) then
          emitM (.roleNotFound role_name)
        else
          emitM (.roleFetchErr role_name e)
      else emitM (.unexpectedErr e))

/-- The per-role loop of `handle_role_list` (source lines 592-620).
For a plain name string with `--detailed`, the full role is fetched
inside an inner try before the name line is printed; an unrecognized
item prints a message and is skipped. -/
def roleListLoop (env : Env) (detailed : Bool) : List RoleItem → CliM Unit
  | [] => pure ()
  | item :: rest =>
    (match item with
     | .robj name perms => do
       emitM (.roleNameLine name)
       if detailed then
         emitM (.rolePermsLine perms)
       else
         pure ()
     | .rstr name => do
       let permissions_to_display ← (if detailed then
           pyTry (do
               let detailed_role ← sdkOp (.rolesGet name) (env.roleGetFor name)
               match detailed_role with
               | some r => pure r.permissions
               | none => pure [])
             (fun e => do
               emitM (.roleDetailErr name e)
               pure [])
         else
           pure ([] : List String))
       emitM (.roleNameLine name)
       if detailed then
         emitM (.rolePermsLine permissions_to_display)
       else
         pure ()
     | .rother r => emitM (.unrecognizedRoleItem r)) >>= fun _ =>
    roleListLoop env detailed rest

/-- Post-connect body of `handle_role_list` (source lines 585-626). -/
def roleListBody (env : Env) (detailed : Bool) : CliM Unit := do
  emitM .fetchingRoles
  pyTry (do
      let all_roles_data ← sdkOp .rolesListAll env.rolesListRes
      if !all_roles_data.isEmpty then do
        emitM .rolesHeader
        roleListLoop env detailed all_roles_data
      else
        emitM .noRoles)
    (fun e =>
      if isWQE e || isWCE e then emitM (.listRolesErr e)
      else emitM (.unexpectedErr e))

/-- `handle_collection_create` (source lines 220-286): connect, then the
post-connect body. -/
def handle_collection_create (env : Env) (a : Args) (name description : String)
    (property : Option (List String)) (vectorizer : Option String)
    (vopts : Option VOpts) (vsrc : Option (List String))
    (replication_factor shards : Option Int) : CliM Unit := do
  connect_to_weaviate env a.url a.root_key a.grpc_host a.grpc_port
  collCreateBody env name description property vectorizer vopts vsrc
    replication_factor shards

/-- `handle_collection_delete` (source lines 289-303). -/
def handle_collection_delete (env : Env) (a : Args) (name : String) : CliM Unit := do
  connect_to_weaviate env a.url a.root_key a.grpc_host a.grpc_port
  collDeleteBody env name

/-- `handle_collection_list` (source lines 305-336). -/
def handle_collection_list (env : Env) (a : Args) (detailed : Bool) : CliM Unit := do
  connect_to_weaviate env a.url a.root_key a.grpc_host a.grpc_port
  collListBody env detailed

/-- `handle_collection_describe` (source lines 338-380). -/
def handle_collection_describe (env : Env) (a : Args) (name : String) : CliM Unit := do
  connect_to_weaviate env a.url a.root_key a.grpc_host a.grpc_port
  collDescribeBody env name

/-- `handle_user_create` (source lines 383-422). -/
def handle_user_create (env : Env) (a : Args) (user_id : String)
    (role : Option (List String)) : CliM Unit := do
  connect_to_weaviate env a.url a.root_key a.grpc_host a.grpc_port
  userCreateBody env user_id role a.recreate_api_key

/-- `handle_user_delete` (source lines 425-445). -/
def handle_user_delete (env : Env) (a : Args) (user_id : String) : CliM Unit := do
  connect_to_weaviate env a.url a.root_key a.grpc_host a.grpc_port
  userDeleteBody env user_id

/-- `handle_user_list` (source lines 447-477). -/
def handle_user_list (env : Env) (a : Args) : CliM Unit := do
  connect_to_weaviate env a.url a.root_key a.grpc_host a.grpc_port
  userListBody env

/-- `handle_user_update_roles` (source lines 479-495). -/
def handle_user_update_roles (env : Env) (a : Args) (user_id : String)
    (role : Option (List String)) : CliM Unit := do
  connect_to_weaviate env a.url a.root_key a.grpc_host a.grpc_port
  userUpdateRolesBody env user_id role

/-- `handle_role_create` (source lines 498-537). -/
def handle_role_create (env : Env) (a : Args) (role_name : String)
    (collection_pattern : List String)
    (adC adR adU adD acC acR acU acD : Bool) : CliM Unit := do
  connect_to_weaviate env a.url a.root_key a.grpc_host a.grpc_port
  roleCreateBody env role_name collection_pattern adC adR adU adD acC acR acU acD

/-- `handle_role_delete` (source lines 540-557). -/
def handle_role_delete (env : Env) (a : Args) (role_name : String) : CliM Unit := do
  connect_to_weaviate env a.url a.root_key a.grpc_host a.grpc_port
  roleDeleteBody env role_name

/-- `handle_role_get` (source lines 559-581). -/
def handle_role_get (env : Env) (a : Args) (role_name : String) : CliM Unit := do
  connect_to_weaviate env a.url a.root_key a.grpc_host a.grpc_port
  roleGetBody env role_name

/-- `handle_role_list` (source lines 583-626). -/
def handle_role_list (env : Env) (a : Args) (detailed : Bool) : CliM Unit := do
  connect_to_weaviate env a.url a.root_key a.grpc_host a.grpc_port
  roleListBody env detailed

/-- The dispatch `args.func(args)` over the parsed subcommand. -/
def runHandler (env : Env) (a : Args) : CliM Unit :=
  match a.cmd with
  | .collCreate name desc prop vec vo vs rf sh =>
    handle_collection_create env a name desc prop vec vo vs rf sh
  | .collDelete name => handle_collection_delete env a name
  | .collList detailed => handle_collection_list env a detailed
  | .collDescribe name => handle_collection_describe env a name
  | .userCreate user_id role => handle_user_create env a user_id role
  | .userDelete user_id => handle_user_delete env a user_id
  | .userList => handle_user_list env a
  | .userUpdateRoles user_id role => handle_user_update_roles env a user_id role
  | .roleCreate rn cp adC adR adU adD acC acR acU acD =>
    handle_role_create env a rn cp adC adR adU adD acC acR acU acD
  | .roleDelete rn => handle_role_delete env a rn
  | .roleGet rn => handle_role_get env a rn
  | .roleList detailed => handle_role_list env a detailed

/-- Source line 732: `args.url if args.url is not None else
config_from_file.get('weaviate_url')`. -/
def finalUrlOf (cliUrl cfgUrl : Option String) : Option String :=
  match cliUrl with
  | some u => some u
  | none => cfgUrl

/-- Source line 733: `args.root_key if args.root_key is not None else
config_from_file.get('api_key', config_from_file.get('root_key'))`. -/
def finalApiKeyOf (cliKey : Option String) (cfg : Config) : Option String :=
  match cliKey with
  | some k => some k
  | none =>
    match cfg.api_key with
    | some v => some v
    | none => cfg.root_key

/-- Source line 734: CLI gRPC host, else the config file's. -/
def finalGrpcHostOf (cliHost cfgHost : Option String) : Option String :=
  match cliHost with
  | some h => some h
  | none => cfgHost

/-- Source line 735: CLI gRPC port, else the config file's. -/
def finalGrpcPortOf (cliPort cfgPort : Option Int) : Option Int :=
  match cliPort with
  | some p => some p
  | none => cfgPort

/-- Source line 755: `os.environ.get("WEAVIATE_API_KEY",
os.environ.get("WEAVIATE_ROOT_KEY"))`. -/
def envKeyLookup (env : Env) : Option String :=
  match env.envApiKey with
  | some v => some v
  | none => env.envRootKey

/-- The credential fallback of `main` (source lines 754-760): if the
merged key is falsy, try the two environment variables; if still falsy,
print a notice and prompt interactively (exit 1 if the prompt raises or
returns an empty string). -/
def resolveRootKey (env : Env) (k0 : Option String) : CliM (Option String) :=
  if falsyOptStr k0 then do
    let k1 := envKeyLookup env
    if falsyOptStr k1 then do
      emitM .keyNotProvided
      let k2 ← pyTry (do
          let s ← promptKeyM env
          pure (some s))
        (fun e => do
          emitM (.keyReadErr e); close_connection env; exitP 1)
      if falsyOptStr k2 then do
        emitM .keyRequired; close_connection env; exitP 1
      else
        pure k2
    else
      pure k1
  else
    pure k0

/-- The overwritten argparse namespace (source lines 737-740): the
merged URL and gRPC parameters and the resolved API key. -/
def mergedArgs (cli : Args) (config_from_file : Config)
    (root_key : Option String) : Args :=
  { cli with
    url := finalUrlOf cli.url config_from_file.weaviate_url
    root_key := root_key
    grpc_host := finalGrpcHostOf cli.grpc_host config_from_file.grpc_host
    grpc_port := finalGrpcPortOf cli.grpc_port config_from_file.grpc_port }

/-- `try: args.func(args) finally: close_connection()` (source lines
762-764). -/
def mainDispatch (env : Env) (a : Args) : CliM Unit :=
  pyFinally (runHandler env a) (close_connection env)

/-- `main` (source lines 629-767), from the point where the arguments
have been parsed: version print, config-file load, flag merging (lines
731-740), credential fallback (754-760), then `try: args.func(args)
finally: close_connection()`.  The help-and-exit paths for a missing
command/action are out of the model (an invocation of a subcommand is
modelled, so both are present). -/
def cfgStage (env : Env) (cli : Args) : CliM Config :=
  match cli.config_file with
  | some p => load_config_from_yaml env p
  | none => pure {}

def mainTail (env : Env) (cli : Args) (config_from_file : Config) : CliM Unit :=
  resolveRootKey env (finalApiKeyOf cli.root_key config_from_file) >>= fun root_key =>
  mainDispatch env (mergedArgs cli config_from_file root_key)

def mainM (env : Env) (cli : Args) : CliM Unit :=
  print_client_version env >>= fun _ =>
  cfgStage env cli >>= fun config_from_file =>
  mainTail env cli config_from_file

/-- One whole invocation, starting with the module-level `client`
unset. -/
def mainRun (env : Env) (cli : Args) : Step Unit := mainM env cli false

/-- The process exit status resulting from a run of `main`: 0 on normal
return, `n` after `exit(n)`, and 1 when an exception escapes `main`
(CPython prints a traceback and exits 1). -/
def processExit : Step Unit → Nat
  | ⟨.ok _, _, _⟩ => 0
  | ⟨.exited n, _, _⟩ => n
  | ⟨.raised _, _, _⟩ => 1

/-- The connect phase fails (and `connect_to_weaviate` calls `exit(1)`)
iff: the URL does not parse (including `urlparse(None)`), the
`connect_to_custom` call raises, the readiness check raises, or the
instance reports not ready. -/
def connectFails (env : Env) : Bool :=
  match env.urlParse with
  | .error _ => true
  | .ok pu =>
    match parse_http_url_details pu with
    | .error _ => true
    | .ok _ =>
      match env.connectRes with
      | .error _ => true
      | .ok _ =>
        match env.isReadyRes with
        | .error _ => true
        | .ok b => !b

/-- The config value `load_config_from_yaml` returns. -/
def cfgLoadVal (env : Env) : Config :=
  match env.yamlLoad with
  | .ok (some c) => c
  | _ => {}

/-- The config the run works with: the loaded file when a config file
was named (empty on load failure), empty otherwise. -/
def configOf (env : Env) (cli : Args) : Config :=
  match cli.config_file with
  | some _ => cfgLoadVal env
  | none => {}

/-- The merged API key after CLI flag and config file (before the
environment/prompt fallback). -/
def mergedKey0 (env : Env) (cli : Args) : Option String :=
  finalApiKeyOf cli.root_key (configOf env cli)

/-- The required credential is missing: CLI/config value falsy, both
environment variables falsy, and the prompt raises or returns "". -/
def credMissing (env : Env) (k0 : Option String) : Bool :=
  falsyOptStr k0 && falsyOptStr (envKeyLookup env) &&
    (match env.getpassRes with
     | .error _ => true
     | .ok s => s == "")

def isCollCreateCmd : Cmd → Bool
  | .collCreate .. => true
  | _ => false

/-- The existence check of `handle_collection_create` raises. -/
def existsCallRaises (env : Env) : Bool :=
  match env.collExistsRes with
  | .error _ => true
  | .ok _ => false

/-- Every `connect_to_custom` call in the trace carries the fixed
`AdditionalConfig(timeout=(20, 120), startup_period=30)`. -/
def goodCfg : Event → Bool
  | .sdk (.connectToCustom p) => decide (p.additional_config = ⟨(20, 120), 30⟩)
  | _ => true

def isClientSetEv : Event → Bool
  | .clientSet => true
  | _ => false

def isCloseEv : Event → Bool
  | .closeCall => true
  | _ => false

def hasClientSet (t : List Event) : Bool := t.any isClientSetEv

def hasCloseCall (t : List Event) : Bool := t.any isCloseEv

/-- Every `clientSet` event in the trace is followed, later in the
trace, by some `.close()` call. -/
def closedAfterSet : List Event → Bool
  | [] => true
  | e :: rest =>
    (if isClientSetEv e then hasCloseCall rest else true) && closedAfterSet rest

/-- SDK method calls other than the connect/readiness/liveness calls of
the connect phase. -/
def isDomCall : SDKCall → Bool
  | .connectToCustom _ => false
  | .isReadyCall => false
  | .isLiveCall => false
  | _ => true

def isDomEvent : Event → Bool
  | .sdk call => isDomCall call
  | _ => false

/-- How many SDK method calls (beyond the connect phase) a trace holds. -/
def domCount (t : List Event) : Nat := (t.filter isDomEvent).length

def isDeleteCall : SDKCall → Bool
  | .collectionsDelete _ => true
  | .usersDelete _ => true
  | .rolesDelete _ => true
  | _ => false

def isDeleteEv : Event → Bool
  | .sdk call => isDeleteCall call
  | _ => false

/-- The trace holds some SDK delete call. -/
def hasDeleteCall (t : List Event) : Bool := t.any isDeleteEv

def isDeleteCmd : Cmd → Bool
  | .collDelete _ => true
  | .userDelete _ => true
  | .roleDelete _ => true
  | _ => false

/-- The handlers that issue at most two SDK method calls beyond the
connect phase (the amended claim C5 excludes `user create`, the three
list handlers and `collection describe`). -/
def cmdAtMostTwo : Cmd → Bool
  | .collCreate .. => true
  | .collDelete _ => true
  | .userDelete _ => true
  | .userUpdateRoles .. => true
  | .roleCreate .. => true
  | .roleDelete _ => true
  | .roleGet _ => true
  | _ => false

/-- The precedence chain asserted by claim C2 for a non-API-key
parameter, following the claim's words (CLI flag, else YAML value,
else an environment-variable value).  The source consults no
environment variable for the URL and gRPC parameters, so this is the
claim's side of the comparison, not the code's. -/
def claimedPrecedence (cliv cfgv envv : Option String) : Option String :=
  match cliv with
  | some v => some v
  | none =>
    match cfgv with
    | some v => some v
    | none => envv

/-- The outcome of the API-key fallback chain as the code implements
it: keep a non-falsy merged key; otherwise a non-falsy environment
value; otherwise the prompt result, with `exit(1)` when the prompt
raises or returns an empty string. -/
def expectedKeyRes (env : Env) (k0 : Option String) : PyResult (Option String) :=
  if !falsyOptStr k0 then .ok k0
  else if !falsyOptStr (envKeyLookup env) then .ok (envKeyLookup env)
  else
    match env.getpassRes with
    | .ok s => if s == "" then .exited 1 else .ok (some s)
    | .error _ => .exited 1

/-- The result of a dispatched handler run after a successful connect:
`ok` for every handler, except that collection create re-raises an
exception of its out-of-try existence check. -/
def expectedHandlerRes (env : Env) (a : Args) : PyResult Unit :=
  if isCollCreateCmd a.cmd then
    match env.collExistsRes with
    | .error e => .raised e
    | .ok _ => .ok ()
  else .ok ()

/-- An invariant bundle for computations that never call `exit`, never
set the module client handle, preserve its state, and emit only
well-configured connect calls (in fact none). -/
def Tame {α : Type} (m : CliM α) : Prop :=
  ∀ c, (∀ n, (m c).res ≠ .exited n) ∧ (m c).client = c ∧
    hasClientSet (m c).trace = false ∧ (m c).trace.all goodCfg = true

/-- `Tame` plus a guaranteed normal result. -/
def TameOk {α : Type} (m : CliM α) : Prop :=
  Tame m ∧ ∀ c, ∃ a, (m c).res = .ok a

/-- A well-formed `urlparse` result used by concrete witnesses. -/
def goodUrl : ParsedUrl := ⟨"http", some "localhost", some 8080⟩

/-- A concrete collection config view used by witnesses. -/
def cfgViewW : ConfigView :=
  ⟨"Films", some "demo", "none", "hnsw", none, none, none, none⟩

/-- A fully healthy external world: config file absent, credential
prompt would succeed, connection succeeds, every SDK call succeeds. -/
def envBase : Env :=
  { clientVersionStr := "4.14.3"
  , yamlLoad := .ok none
  , envApiKey := none
  , envRootKey := none
  , getpassRes := .ok "adminkey"
  , confirmInput := "yes"
  , existingConnected := false
  , existingReady := false
  , urlParse := .ok goodUrl
  , connectRes := .ok ()
  , isReadyRes := .ok true
  , isLiveRes := .ok true
  , closeRes := .ok ()
  , sdkGetattr := fun _ => none
  , collExistsRes := .ok false
  , collCreateRes := .ok ()
  , collDeleteRes := .ok ()
  , collListRes := .ok []
  , collCfgFor := fun _ => .ok cfgViewW
  , collGetRes := .ok ()
  , toDictRes := .ok "configdict"
  , usersListRes := .ok []
  , usersCreateRes := .ok ⟨some "newkey123", "apikeyobj"⟩
  , usersDeleteRes := .ok ()
  , assignRolesRes := .ok ()
  , userRolesFor := fun _ => .ok []
  , roleExistsRes := .ok false
  , roleCreateRes := .ok ()
  , roleDeleteRes := .ok ()
  , roleGetRes := .ok none
  , roleGetFor := fun _ => .ok none
  , rolesListRes := .ok [] }

/-- A concrete invocation of the given subcommand with URL and API key
supplied on the command line. -/
def argsWith (c : Cmd) : Args :=
  { url := some "http://localhost:8080"
  , root_key := some "adminkey"
  , grpc_host := none
  , grpc_port := none
  , config_file := none
  , recreate_api_key := false
  , cmd := c }


/-- The key value the credential fallback settles on when it does not
exit (arbitrary in the unreachable prompt-error case). -/
def resolvedKeyVal (env : Env) (k0 : Option String) : Option String :=
  if !falsyOptStr k0 then k0
  else if !falsyOptStr (envKeyLookup env) then envKeyLookup env
  else
    match env.getpassRes with
    | .ok s => some s
    | .error _ => none

/-- A connect call event (used to show the fixed-config property is
not vacuous). -/
def isConnectEv : Event → Bool
  | .sdk (.connectToCustom _) => true
  | _ => false

/-- Bound on the number of SDK method calls (beyond the connect phase)
a computation can emit, over every client state. -/
def DomLe {α : Type} (n : Nat) (m : CliM α) : Prop :=
  ∀ c, domCount (m c).trace ≤ n

/-- The value one `--property` entry contributes, when valid: the split
at the first colon with a recognized (uppercased) data type. -/
def propParse1 (sdkAttr : String → Option DataType) (p : String) :
    Option PropertyV4 :=
  match splitOnce ':' p with
  | none => none
  | some (name, dts) =>
    match dataTypeOfUpper sdkAttr (strUpper dts) with
    | none => none
    | some dt => some ⟨name, dt⟩

/-- The warning one `--property` entry produces, when skipped. -/
def propWarn1 (sdkAttr : String → Option DataType) (p : String) : Option Msg :=
  match splitOnce ':' p with
  | none => some (Msg.propFormatWarn p)
  | some (name, dts) =>
    match dataTypeOfUpper sdkAttr (strUpper dts) with
    | none => some (Msg.propTypeWarn dts name)
    | some _ => none

/-- The document `collection describe` serializes: the `to_dict()`
result when that call succeeds, the fallback dict otherwise. -/
def describeDocOf (env : Env) (v : ConfigView) : CfgDoc :=
  match env.toDictRes with
  | .ok d => CfgDoc.ofToDict d
  | .error _ => CfgDoc.ofFallback (fallbackOf v)

/-- Concrete world in which the existence check of collection create
raises a WeaviateQueryException (everything else healthy). -/
def envCollExistsErr : Env :=
  { envBase with collExistsRes := .error (.wqe "boom") }

/-- A concrete `collection create` invocation. -/
def argsCollCreate : Args :=
  argsWith (.collCreate "Films" "" none none none none none none)

/-- Concrete world in which `users.db.delete` raises inside the
handler's try block. -/
def envUserDelErr : Env :=
  { envBase with usersDeleteRes := .error (.wqe "oops") }

/-- Concrete world with one existing API-key user_id `bob`. -/
def envUserBob : Env :=
  { envBase with usersListRes := .ok ["bob"] }

/-- A `user create --user-id bob --role admin --recreate-api-key`
invocation. -/
def argsUserCreateRec : Args :=
  { argsWith (.userCreate "bob" (some ["admin"])) with recreate_api_key := true }

/-- Concrete world in which the collection `Films` exists. -/
def envDescribeW : Env :=
  { envBase with collExistsRes := .ok true }

/-- Concrete world in which the interactive confirmation answers
`no`. -/
def envConfirmNo : Env :=
  { envBase with confirmInput := "no" }

/-- Decidable equality for `Except` outcomes (used by concrete
witnesses). -/
instance {e a : Type} [DecidableEq e] [DecidableEq a] : DecidableEq (Except e a) := fun x y =>
  match x, y with
  | .ok u, .ok v =>
    if h : u = v then isTrue (by rw [h]) else isFalse (fun c => by cases c; exact h rfl)
  | .error u, .error v =>
    if h : u = v then isTrue (by rw [h]) else isFalse (fun c => by cases c; exact h rfl)
  | .ok _, .error _ => isFalse (fun c => by cases c)
  | .error _, .ok _ => isFalse (fun c => by cases c)

/-- The exit status determined by a result alone. -/
def processExitR : PyResult Unit → Nat
  | .ok _ => 0
  | .exited n => n
  | .raised _ => 1

theorem cliBind_apply {α β : Type} (m : CliM α) (k : α → CliM β) (c : Bool) :
    (m >>= k) c = CliM.bind m k c := rfl

theorem cliPure_apply {α : Type} (a : α) (c : Bool) :
    (pure a : CliM α) c = ⟨.ok a, c, []⟩ := rfl

theorem bind_step_ok {α β : Type} {m : CliM α} {k : α → CliM β} {c cl : Bool}
    {a : α} {t : List Event} (h : m c = ⟨.ok a, cl, t⟩) :
    (m >>= k) c = ⟨(k a cl).res, (k a cl).client, t ++ (k a cl).trace⟩ := by
  rw [cliBind_apply]; unfold CliM.bind; rw [h]

theorem bind_step_exited {α β : Type} {m : CliM α} {k : α → CliM β} {c cl : Bool}
    {n : Nat} {t : List Event} (h : m c = ⟨.exited n, cl, t⟩) :
    (m >>= k) c = ⟨.exited n, cl, t⟩ := by
  rw [cliBind_apply]; unfold CliM.bind; rw [h]

theorem bind_step_raised {α β : Type} {m : CliM α} {k : α → CliM β} {c cl : Bool}
    {e : Exc} {t : List Event} (h : m c = ⟨.raised e, cl, t⟩) :
    (m >>= k) c = ⟨.raised e, cl, t⟩ := by
  rw [cliBind_apply]; unfold CliM.bind; rw [h]

theorem step_eta {α : Type} (m : CliM α) (c : Bool) :
    m c = ⟨(m c).res, (m c).client, (m c).trace⟩ := rfl

theorem tame_emitM (m : Msg) : Tame (emitM m) := by
  intro c
  refine ⟨?_, rfl, ?_, ?_⟩ <;> simp [emitM, emit, hasClientSet, isClientSetEv, goodCfg]

theorem tameOk_emitM (m : Msg) : TameOk (emitM m) :=
  ⟨tame_emitM m, fun c => ⟨(), rfl⟩⟩

theorem tame_pure {α : Type} (a : α) : Tame (pure a : CliM α) := by
  intro c
  refine ⟨?_, rfl, ?_, ?_⟩ <;> simp [cliPure_apply, hasClientSet]

theorem tameOk_pure {α : Type} (a : α) : TameOk (pure a : CliM α) :=
  ⟨tame_pure a, fun c => ⟨a, rfl⟩⟩

theorem tame_sdkOp {α : Type} (call : SDKCall) (r : Except Exc α)
    (h : goodCfg (Event.sdk call) = true) : Tame (sdkOp call r) := by
  intro c
  cases r <;> refine ⟨?_, rfl, ?_, ?_⟩ <;>
    simp [sdkOp, hasClientSet, isClientSetEv, h]

theorem tameOk_sdkOp_ok {α : Type} (call : SDKCall) (a : α)
    (h : goodCfg (Event.sdk call) = true) : TameOk (sdkOp call (.ok a)) :=
  ⟨tame_sdkOp call (.ok a) h, fun c => ⟨a, rfl⟩⟩

theorem tame_exitP {α : Type} (n : Nat) : ¬ Tame (exitP n : CliM α) := by
  intro h
  exact (h false).1 n rfl

theorem tame_readInput (env : Env) : Tame (readInput env) := by
  intro c
  refine ⟨?_, rfl, ?_, ?_⟩ <;>
    simp [readInput, hasClientSet, isClientSetEv, goodCfg]

theorem tameOk_readInput (env : Env) : TameOk (readInput env) :=
  ⟨tame_readInput env, fun c => ⟨env.confirmInput, rfl⟩⟩

theorem tame_bind {α β : Type} {m : CliM α} {k : α → CliM β}
    (hm : Tame m) (hk : ∀ a, Tame (k a)) : Tame (m >>= k) := by
  intro c
  obtain ⟨hex, hcl, hset, hcfg⟩ := hm c
  rw [show (m >>= k) c = CliM.bind m k c from rfl]
  unfold CliM.bind
  cases hres : (m c).res with
  | ok a =>
    obtain ⟨hex2, hcl2, hset2, hcfg2⟩ := hk a (m c).client
    refine ⟨fun n => ?_, ?_, ?_, ?_⟩ <;>
      simp [hres, hasClientSet, List.any_append, List.all_append] <;>
      simp [hasClientSet] at hset hset2 <;>
      simp_all [hcl, hcl2, hset, hset2, hcfg, hcfg2]
  | exited n => exact absurd hres (by simpa using hex n)
  | raised e =>
    refine ⟨fun n => ?_, ?_, ?_, ?_⟩ <;> simp [hres, hcl, hset, hcfg]

theorem tameOk_bind {α β : Type} {m : CliM α} {k : α → CliM β}
    (hm : TameOk m) (hk : ∀ a, TameOk (k a)) : TameOk (m >>= k) := by
  refine ⟨tame_bind hm.1 (fun a => (hk a).1), fun c => ?_⟩
  obtain ⟨a, ha⟩ := hm.2 c
  obtain ⟨b, hb⟩ := (hk a).2 (m c).client
  refine ⟨b, ?_⟩
  rw [show (m >>= k) c = CliM.bind m k c from rfl]
  unfold CliM.bind
  simp [ha, hb]

theorem tame_ite {α : Type} {p : Prop} [Decidable p] {m1 m2 : CliM α}
    (h1 : Tame m1) (h2 : Tame m2) : Tame (if p then m1 else m2) := by
  by_cases h : p <;> simp [h] <;> assumption

theorem tameOk_ite {α : Type} {p : Prop} [Decidable p] {m1 m2 : CliM α}
    (h1 : TameOk m1) (h2 : TameOk m2) : TameOk (if p then m1 else m2) := by
  by_cases h : p <;> simp [h] <;> assumption

theorem tame_pyTry {α : Type} {body : CliM α} {handler : Exc → CliM α}
    (hb : Tame body) (hh : ∀ e, Tame (handler e)) : Tame (pyTry body handler) := by
  intro c
  obtain ⟨hex, hcl, hset, hcfg⟩ := hb c
  unfold pyTry
  cases hres : (body c).res with
  | ok a => refine ⟨fun n => ?_, ?_, ?_, ?_⟩ <;> simp [hres, hcl, hset, hcfg]
  | exited n => exact absurd hres (by simpa using hex n)
  | raised e =>
    obtain ⟨hex2, hcl2, hset2, hcfg2⟩ := hh e (body c).client
    refine ⟨fun n => ?_, ?_, ?_, ?_⟩ <;>
      simp [hres, hasClientSet, List.any_append, List.all_append] <;>
      simp [hasClientSet] at hset hset2 <;>
      simp_all [hcl, hcl2, hset, hset2, hcfg, hcfg2]

theorem tameOk_pyTry {α : Type} {body : CliM α} {handler : Exc → CliM α}
    (hb : Tame body) (hh : ∀ e, TameOk (handler e)) : TameOk (pyTry body handler) := by
  refine ⟨tame_pyTry hb (fun e => (hh e).1), fun c => ?_⟩
  obtain ⟨hex, hcl, hset, hcfg⟩ := hb c
  unfold pyTry
  cases hres : (body c).res with
  | ok a => exact ⟨a, by simp [hres]⟩
  | exited n => exact absurd hres (by simpa using hex n)
  | raised e =>
    obtain ⟨a, ha⟩ := (hh e).2 (body c).client
    exact ⟨a, by simp [hres, ha]⟩

theorem tameOk_step {m : CliM Unit} (h : TameOk m) (c : Bool) :
    ∃ t, m c = ⟨.ok (), c, t⟩ ∧ hasClientSet t = false ∧ t.all goodCfg = true := by
  obtain ⟨ht, ho⟩ := h
  obtain ⟨hex, hcl, hset, hcfg⟩ := ht c
  obtain ⟨a, ha⟩ := ho c
  cases a
  refine ⟨(m c).trace, ?_, hset, hcfg⟩
  rw [step_eta m c, ha, hcl]

theorem tameOk_emitWarnings (l : List Msg) : TameOk (emitWarnings l) := by
  induction l with
  | nil => exact tameOk_pure ()
  | cons m rest ih => exact tameOk_bind (tameOk_emitM m) (fun _ => ih)

theorem tameOk_vecCfgOf (v : Option String) (vo : Option VOpts)
    (vs : Option (List String)) : TameOk (vecCfgOf v vo vs) := by
  unfold vecCfgOf
  cases v with
  | none => exact tameOk_pure none
  | some s =>
    refine tameOk_ite (tameOk_pure none) ?_
    refine tameOk_ite (tameOk_pure _) ?_
    refine tameOk_ite (tameOk_pure _) ?_
    refine tameOk_ite (tameOk_pure _) ?_
    refine tameOk_ite (tameOk_pure _) ?_
    exact tameOk_bind (tameOk_emitM _) (fun _ => tameOk_pure none)

theorem tameOk_collDeleteBody (env : Env) (name : String) :
    TameOk (collDeleteBody env name) := by
  unfold collDeleteBody
  refine tameOk_bind (tameOk_readInput env) (fun confirm => ?_)
  refine tameOk_ite (tameOk_emitM _) ?_
  refine tameOk_bind (tameOk_emitM _) (fun _ => ?_)
  refine tameOk_pyTry ?_ (fun e => ?_)
  · exact tame_bind (tame_sdkOp _ _ rfl) (fun _ => (tameOk_emitM _).1)
  · exact tameOk_ite (tameOk_emitM _) (tameOk_emitM _)

theorem tameOk_collListLoop (env : Env) (detailed : Bool) (l : List String) :
    TameOk (collListLoop env detailed l) := by
  induction l with
  | nil => exact tameOk_pure ()
  | cons n rest ih =>
    refine tameOk_bind ?_ (fun _ => ih)
    refine tameOk_ite ?_ (tameOk_emitM _)
    refine tameOk_bind (tameOk_emitM _) (fun _ => ?_)
    refine tameOk_pyTry ?_ (fun e => tameOk_emitM _)
    exact tame_bind (tame_sdkOp _ _ rfl) (fun cfg => (tameOk_emitM _).1)

theorem tameOk_collListBody (env : Env) (detailed : Bool) :
    TameOk (collListBody env detailed) := by
  unfold collListBody
  refine tameOk_bind (tameOk_emitM _) (fun _ => ?_)
  refine tameOk_pyTry ?_ (fun e => tameOk_ite (tameOk_emitM _) (tameOk_emitM _))
  refine tame_bind (tame_sdkOp _ _ rfl) (fun names => ?_)
  refine (tameOk_ite ?_ (tameOk_emitM _)).1
  exact tameOk_bind (tameOk_emitM _) (fun _ => tameOk_collListLoop env detailed names)

theorem tameOk_collDescribeBody (env : Env) (name : String) :
    TameOk (collDescribeBody env name) := by
  unfold collDescribeBody
  refine tameOk_bind (tameOk_emitM _) (fun _ => ?_)
  refine tameOk_pyTry ?_ (fun e => tameOk_ite (tameOk_emitM _) (tameOk_emitM _))
  refine tame_bind (tame_sdkOp _ _ rfl) (fun ex => ?_)
  refine tame_ite (tame_emitM _) ?_
  refine tame_bind (tame_sdkOp _ _ rfl) (fun _ => ?_)
  refine tame_bind (tame_sdkOp _ _ rfl) (fun cfg => ?_)
  exact (tameOk_emitM _).1

theorem tameOk_userCreateBody (env : Env) (user_id : String)
    (role : Option (List String)) (recreate : Bool) :
    TameOk (userCreateBody env user_id role recreate) := by
  unfold userCreateBody
  refine tameOk_bind (tameOk_emitM _) (fun _ => ?_)
  refine tameOk_pyTry ?_ (fun e => tameOk_ite (tameOk_emitM _) (tameOk_emitM _))
  refine tame_bind (tame_sdkOp _ _ rfl) (fun keys => ?_)
  refine tame_bind ?_ (fun _ => ?_)
  · refine tame_ite (tame_emitM _) ?_
    refine tame_bind ?_ (fun _ => ?_)
    · refine tame_ite ?_ (tame_pure _)
      refine tame_bind (tame_emitM _) (fun _ => ?_)
      refine (tameOk_pyTry ?_ (fun e => tameOk_emitM _)).1
      exact tame_bind (tame_sdkOp _ _ rfl) (fun _ => (tameOk_emitM _).1)
    · refine tame_bind (tame_sdkOp _ _ rfl) (fun keyObj => ?_)
      exact (tameOk_emitM _).1
  · refine tame_ite ?_ (tame_emitM _)
    refine tame_bind (tame_emitM _) (fun _ => ?_)
    exact tame_bind (tame_sdkOp _ _ rfl) (fun _ => (tameOk_emitM _).1)

theorem tameOk_userDeleteBody (env : Env) (user_id : String) :
    TameOk (userDeleteBody env user_id) := by
  unfold userDeleteBody
  refine tameOk_bind (tameOk_readInput env) (fun confirm => ?_)
  refine tameOk_ite (tameOk_emitM _) ?_
  refine tameOk_bind (tameOk_emitM _) (fun _ => ?_)
  refine tameOk_pyTry ?_ (fun e => ?_)
  · exact tame_bind (tame_sdkOp _ _ rfl) (fun _ => (tameOk_emitM _).1)
  · exact tameOk_ite (tameOk_ite (tameOk_emitM _) (tameOk_emitM _)) (tameOk_emitM _)

theorem tameOk_userListLoop (env : Env) (l : List String) :
    TameOk (userListLoop env l) := by
  induction l with
  | nil => exact tameOk_pure ()
  | cons u rest ih =>
    refine tameOk_bind ?_ (fun roles => ?_)
    · refine tameOk_pyTry ?_ (fun e => tameOk_bind (tameOk_emitM _) (fun _ => tameOk_pure _))
      refine tame_bind (tame_sdkOp _ _ rfl) (fun rd => ?_)
      refine tame_ite (tame_pure _) ?_
      refine tame_ite (tame_pure _) ?_
      refine tame_ite (tame_pure _) ?_
      exact tame_bind (tame_emitM _) (fun _ => tame_pure _)
    · exact tameOk_bind (tameOk_emitM _) (fun _ => ih)

theorem tameOk_userListBody (env : Env) : TameOk (userListBody env) := by
  unfold userListBody
  refine tameOk_bind (tameOk_emitM _) (fun _ => ?_)
  refine tameOk_pyTry ?_ (fun e => tameOk_ite (tameOk_emitM _) (tameOk_emitM _))
  refine tame_bind (tame_sdkOp _ _ rfl) (fun keys => ?_)
  refine (tameOk_ite ?_ (tameOk_emitM _)).1
  exact tameOk_bind (tameOk_emitM _) (fun _ => tameOk_userListLoop env keys)

theorem tameOk_userUpdateRolesBody (env : Env) (user_id : String)
    (role : Option (List String)) : TameOk (userUpdateRolesBody env user_id role) := by
  unfold userUpdateRolesBody
  refine tameOk_bind (tameOk_emitM _) (fun _ => ?_)
  refine tameOk_pyTry ?_ (fun e => tameOk_ite (tameOk_emitM _) (tameOk_emitM _))
  exact tame_bind (tame_sdkOp _ _ rfl) (fun _ => (tameOk_emitM _).1)

theorem tameOk_roleCreateBody (env : Env) (role_name : String)
    (cp : List String) (adC adR adU adD acC acR acU acD : Bool) :
    TameOk (roleCreateBody env role_name cp adC adR adU adD acC acR acU acD) := by
  unfold roleCreateBody
  refine tameOk_bind (tameOk_emitM _) (fun _ => ?_)
  refine tameOk_pyTry ?_ (fun e => tameOk_ite (tameOk_emitM _) (tameOk_emitM _))
  refine tame_bind (tame_sdkOp _ _ rfl) (fun ex => ?_)
  refine tame_ite (tame_emitM _) ?_
  refine tame_bind (tame_emitM _) (fun _ => ?_)
  exact tame_bind (tame_sdkOp _ _ rfl) (fun _ => (tameOk_emitM _).1)

theorem tameOk_roleDeleteBody (env : Env) (role_name : String) :
    TameOk (roleDeleteBody env role_name) := by
  unfold roleDeleteBody
  refine tameOk_bind (tameOk_readInput env) (fun confirm => ?_)
  refine tameOk_ite (tameOk_emitM _) ?_
  refine tameOk_bind (tameOk_emitM _) (fun _ => ?_)
  refine tameOk_pyTry ?_ (fun e => ?_)
  · exact tame_bind (tame_sdkOp _ _ rfl) (fun _ => (tameOk_emitM _).1)
  · exact tameOk_ite (tameOk_ite (tameOk_emitM _) (tameOk_emitM _)) (tameOk_emitM _)

theorem tameOk_roleGetBody (env : Env) (role_name : String) :
    TameOk (roleGetBody env role_name) := by
  unfold roleGetBody
  refine tameOk_bind (tameOk_emitM _) (fun _ => ?_)
  refine tameOk_pyTry ?_ (fun e => ?_)
  · refine tame_bind (tame_sdkOp _ _ rfl) (fun role => ?_)
    cases role with
    | some r => exact (tameOk_emitM _).1
    | none => exact (tameOk_emitM _).1
  · exact tameOk_ite (tameOk_ite (tameOk_emitM _) (tameOk_emitM _)) (tameOk_emitM _)

theorem tameOk_roleListLoop (env : Env) (detailed : Bool) (l : List RoleItem) :
    TameOk (roleListLoop env detailed l) := by
  induction l with
  | nil => exact tameOk_pure ()
  | cons item rest ih =>
    refine tameOk_bind ?_ (fun _ => ih)
    cases item with
    | robj name perms =>
      exact tameOk_bind (tameOk_emitM _) (fun _ =>
        tameOk_ite (tameOk_emitM _) (tameOk_pure ()))
    | rstr name =>
      refine tameOk_bind ?_ (fun perms => ?_)
      · refine tameOk_ite ?_ (tameOk_pure _)
        refine tameOk_pyTry ?_
          (fun e => tameOk_bind (tameOk_emitM _) (fun _ => tameOk_pure _))
        refine tame_bind (tame_sdkOp _ _ rfl) (fun dr => ?_)
        cases dr with
        | some r => exact tame_pure _
        | none => exact tame_pure _
      · exact tameOk_bind (tameOk_emitM _) (fun _ =>
          tameOk_ite (tameOk_emitM _) (tameOk_pure ()))
    | rother r => exact tameOk_emitM _

theorem tameOk_roleListBody (env : Env) (detailed : Bool) :
    TameOk (roleListBody env detailed) := by
  unfold roleListBody
  refine tameOk_bind (tameOk_emitM _) (fun _ => ?_)
  refine tameOk_pyTry ?_ (fun e => tameOk_ite (tameOk_emitM _) (tameOk_emitM _))
  refine tame_bind (tame_sdkOp _ _ rfl) (fun items => ?_)
  refine (tameOk_ite ?_ (tameOk_emitM _)).1
  exact tameOk_bind (tameOk_emitM _) (fun _ => tameOk_roleListLoop env detailed items)

theorem pyTry_step_ok {α : Type} {body : CliM α} {handler : Exc → CliM α}
    {c cl : Bool} {a : α} {t : List Event} (h : body c = ⟨.ok a, cl, t⟩) :
    pyTry body handler c = ⟨.ok a, cl, t⟩ := by
  unfold pyTry; rw [h]

theorem pyTry_step_exited {α : Type} {body : CliM α} {handler : Exc → CliM α}
    {c cl : Bool} {n : Nat} {t : List Event} (h : body c = ⟨.exited n, cl, t⟩) :
    pyTry body handler c = ⟨.exited n, cl, t⟩ := by
  unfold pyTry; rw [h]

theorem pyTry_step_raised {α : Type} {body : CliM α} {handler : Exc → CliM α}
    {c cl : Bool} {e : Exc} {t : List Event} (h : body c = ⟨.raised e, cl, t⟩) :
    pyTry body handler c = ⟨(handler e cl).res, (handler e cl).client,
      t ++ (handler e cl).trace⟩ := by
  unfold pyTry; rw [h]

theorem connectExcHandler_spec (env : Env) (e : Exc) :
    (connectExcHandler env e false).res = .exited 1 ∧
    (connectExcHandler env e false).client = false ∧
    hasClientSet (connectExcHandler env e false).trace = false ∧
    (connectExcHandler env e false).trace.all goodCfg = true := by
  unfold connectExcHandler
  by_cases h1 : isValueErr e = true <;> by_cases h2 : isWCE e = true <;>
    by_cases h3 : isWSE e = true <;>
    simp [h1, h2, h3, cliBind_apply, CliM.bind, emitM, emit, closeIfSet,
      clearClient, exitP, hasClientSet, isClientSetEv, goodCfg]

theorem connectTryBody_spec (env : Env) (k gh : Option String) (gp : Option Int) :
    ((connectTryBody env k gh gp false).trace.all goodCfg = true) ∧
    (connectFails env = false →
      (connectTryBody env k gh gp false).res = .ok () ∧
      (connectTryBody env k gh gp false).client = true) ∧
    (connectFails env = true →
      (connectTryBody env k gh gp false).client = false ∧
      hasClientSet (connectTryBody env k gh gp false).trace = false ∧
      ((connectTryBody env k gh gp false).res = .exited 1 ∨
        ∃ e, (connectTryBody env k gh gp false).res = .raised e)) := by
  unfold connectTryBody connectFails
  cases hu : env.urlParse with
  | error e =>
    simp [hu, cliBind_apply, CliM.bind, cliPure_apply, getClient, emitM, emit,
      liftExc, sdkOp, setClientOn, clearClient, closeNewClient, exitP, pyTry,
      hasClientSet, isClientSetEv, goodCfg]
  | ok pu =>
    cases hp : parse_http_url_details pu with
    | error e =>
      simp [hu, hp, cliBind_apply, CliM.bind, cliPure_apply, getClient, emitM, emit,
        liftExc, sdkOp, setClientOn, clearClient, closeNewClient, exitP, pyTry,
        hasClientSet, isClientSetEv, goodCfg]
    | ok hps =>
      obtain ⟨http_host, http_port, http_secure⟩ := hps
      cases hc : env.connectRes with
      | error e =>
        simp [hu, hp, hc, cliBind_apply, CliM.bind, cliPure_apply, getClient, emitM,
          emit, liftExc, sdkOp, setClientOn, clearClient, closeNewClient, exitP, pyTry,
          hasClientSet, isClientSetEv, goodCfg]
      | ok u =>
        cases hr : env.isReadyRes with
        | error e =>
          simp [hu, hp, hc, hr, cliBind_apply, CliM.bind, cliPure_apply, getClient,
            emitM, emit, liftExc, sdkOp, setClientOn, clearClient, closeNewClient,
            exitP, pyTry, hasClientSet, isClientSetEv, goodCfg]
        | ok b =>
          cases b with
          | true =>
            simp [hu, hp, hc, hr, cliBind_apply, CliM.bind, cliPure_apply, getClient,
              emitM, emit, liftExc, sdkOp, setClientOn, clearClient, closeNewClient,
              exitP, pyTry, hasClientSet, isClientSetEv, goodCfg]
          | false =>
            cases hl : env.isLiveRes with
            | error e2 =>
              cases hcl : env.closeRes with
              | ok u2 =>
                simp [hu, hp, hc, hr, hl, hcl, cliBind_apply, CliM.bind, cliPure_apply,
                  getClient, emitM, emit, liftExc, sdkOp, setClientOn, clearClient,
                  closeNewClient, exitP, pyTry, hasClientSet, isClientSetEv, goodCfg]
              | error e3 =>
                simp [hu, hp, hc, hr, hl, hcl, cliBind_apply, CliM.bind, cliPure_apply,
                  getClient, emitM, emit, liftExc, sdkOp, setClientOn, clearClient,
                  closeNewClient, exitP, pyTry, hasClientSet, isClientSetEv, goodCfg]
            | ok lv =>
              cases hcl : env.closeRes with
              | ok u2 =>
                simp [hu, hp, hc, hr, hl, hcl, cliBind_apply, CliM.bind, cliPure_apply,
                  getClient, emitM, emit, liftExc, sdkOp, setClientOn, clearClient,
                  closeNewClient, exitP, pyTry, hasClientSet, isClientSetEv, goodCfg]
              | error e3 =>
                simp [hu, hp, hc, hr, hl, hcl, cliBind_apply, CliM.bind, cliPure_apply,
                  getClient, emitM, emit, liftExc, sdkOp, setClientOn, clearClient,
                  closeNewClient, exitP, pyTry, hasClientSet, isClientSetEv, goodCfg]

theorem connect_spec (env : Env) (url api_key : Option String)
    (gh : Option String) (gp : Option Int) :
    ((connect_to_weaviate env url api_key gh gp false).trace.all goodCfg = true) ∧
    (connectFails env = false →
      (connect_to_weaviate env url api_key gh gp false).res = .ok () ∧
      (connect_to_weaviate env url api_key gh gp false).client = true) ∧
    (connectFails env = true →
      (connect_to_weaviate env url api_key gh gp false).res = .exited 1 ∧
      (connect_to_weaviate env url api_key gh gp false).client = false ∧
      hasClientSet (connect_to_weaviate env url api_key gh gp false).trace = false) := by
  have hb := connectTryBody_spec env
    (if falsyOptStr api_key then none else api_key) gh gp
  obtain ⟨hgood, hok, hfail⟩ := hb
  have hconn : connect_to_weaviate env url api_key gh gp false =
      ⟨(pyTry (connectTryBody env (if falsyOptStr api_key then none else api_key) gh gp)
          (connectExcHandler env) false).res,
        (pyTry (connectTryBody env (if falsyOptStr api_key then none else api_key) gh gp)
          (connectExcHandler env) false).client,
        Event.printMsg (.attemptConnect url) ::
          (pyTry (connectTryBody env (if falsyOptStr api_key then none else api_key) gh gp)
            (connectExcHandler env) false).trace⟩ := by
    unfold connect_to_weaviate
    simp [cliBind_apply, CliM.bind, getClient, emitM, emit]
  cases hcf : connectFails env with
  | false =>
    obtain ⟨hres, hcl⟩ := hok hcf
    have hstep : connectTryBody env
        (if falsyOptStr api_key then none else api_key) gh gp false =
        ⟨.ok (), true, (connectTryBody env
          (if falsyOptStr api_key then none else api_key) gh gp false).trace⟩ := by
      rw [step_eta (connectTryBody env
        (if falsyOptStr api_key then none else api_key) gh gp) false, hres, hcl]
    rw [hconn, pyTry_step_ok hstep]
    refine ⟨?_, ?_, ?_⟩
    · simp [List.all_cons, goodCfg, hgood]
    · exact fun _ => ⟨rfl, rfl⟩
    · intro h; cases h
  | true =>
    obtain ⟨hcl, hset, hres⟩ := hfail hcf
    cases hres with
    | inl hexit =>
      have hstep : connectTryBody env
          (if falsyOptStr api_key then none else api_key) gh gp false =
          ⟨.exited 1, false, (connectTryBody env
            (if falsyOptStr api_key then none else api_key) gh gp false).trace⟩ := by
        rw [step_eta (connectTryBody env
          (if falsyOptStr api_key then none else api_key) gh gp) false, hexit, hcl]
      rw [hconn, pyTry_step_exited hstep]
      refine ⟨?_, ?_, ?_⟩
      · simp [List.all_cons, goodCfg, hgood]
      · intro h; cases h
      · exact fun _ => ⟨rfl, rfl, by
          simp [hasClientSet, List.any_cons, isClientSetEv]
          simpa [hasClientSet] using hset⟩
    | inr hraised =>
      obtain ⟨e, he⟩ := hraised
      have hstep : connectTryBody env
          (if falsyOptStr api_key then none else api_key) gh gp false =
          ⟨.raised e, false, (connectTryBody env
            (if falsyOptStr api_key then none else api_key) gh gp false).trace⟩ := by
        rw [step_eta (connectTryBody env
          (if falsyOptStr api_key then none else api_key) gh gp) false, he, hcl]
      obtain ⟨ehres, ehcl, ehset, ehgood⟩ := connectExcHandler_spec env e
      rw [hconn, pyTry_step_raised hstep]
      refine ⟨?_, ?_, ?_⟩
      · simp [List.all_cons, List.all_append, goodCfg, hgood, ehgood]
      · intro h; cases h
      · refine fun _ => ⟨by simp [ehres], by simp [ehcl], ?_⟩
        simp [hasClientSet, List.any_cons, List.any_append, isClientSetEv]
        constructor
        · simpa [hasClientSet] using hset
        · simpa [hasClientSet] using ehset

theorem connect_then_spec (env : Env) (url key gh : Option String) (gp : Option Int)
    {body : CliM Unit} (hbody : TameOk body) :
    (((connect_to_weaviate env url key gh gp >>= fun _ => body) false).trace.all goodCfg = true) ∧
    (connectFails env = true →
      ((connect_to_weaviate env url key gh gp >>= fun _ => body) false).res = .exited 1 ∧
      ((connect_to_weaviate env url key gh gp >>= fun _ => body) false).client = false ∧
      hasClientSet ((connect_to_weaviate env url key gh gp >>= fun _ => body) false).trace = false) ∧
    (connectFails env = false →
      ((connect_to_weaviate env url key gh gp >>= fun _ => body) false).res = .ok () ∧
      ((connect_to_weaviate env url key gh gp >>= fun _ => body) false).client = true) := by
  obtain ⟨cgood, cok, cfail⟩ := connect_spec env url key gh gp
  cases hcf : connectFails env with
  | true =>
    obtain ⟨hres, hcl, hset⟩ := cfail hcf
    have hstep : connect_to_weaviate env url key gh gp false =
        ⟨.exited 1, false, (connect_to_weaviate env url key gh gp false).trace⟩ := by
      rw [step_eta (connect_to_weaviate env url key gh gp) false, hres, hcl]
    rw [bind_step_exited hstep]
    refine ⟨cgood, ?_, ?_⟩
    · intro h
      exact ⟨rfl, rfl, hset⟩
    · intro h
      cases h
  | false =>
    obtain ⟨hres, hcl⟩ := cok hcf
    have hstep : connect_to_weaviate env url key gh gp false =
        ⟨.ok (), true, (connect_to_weaviate env url key gh gp false).trace⟩ := by
      rw [step_eta (connect_to_weaviate env url key gh gp) false, hres, hcl]
    obtain ⟨t2, hb2, hset2, hgood2⟩ := tameOk_step hbody true
    rw [bind_step_ok hstep, hb2]
    refine ⟨?_, ?_, ?_⟩
    · simp [List.all_append, cgood, hgood2]
    · intro h
      cases h
    · intro h
      exact ⟨rfl, rfl⟩

theorem collCreateBody_spec (env : Env) (name description : String)
    (property : Option (List String)) (vectorizer : Option String)
    (vopts : Option VOpts) (vsrc : Option (List String))
    (rf sh : Option Int) (c : Bool) :
    (existsCallRaises env = false →
      ∃ t, collCreateBody env name description property vectorizer vopts vsrc rf sh c =
        ⟨.ok (), c, t⟩ ∧ hasClientSet t = false ∧ t.all goodCfg = true) ∧
    (∀ e, env.collExistsRes = .error e →
      collCreateBody env name description property vectorizer vopts vsrc rf sh c =
        ⟨.raised e, c, [Event.printMsg (.attemptCreateColl name),
          Event.sdk (.collectionsExists name)]⟩) := by
  constructor
  · intro hok
    have hto : TameOk (collCreateBody env name description property vectorizer vopts vsrc rf sh) := by
      unfold collCreateBody
      refine tameOk_bind (tameOk_emitM _) (fun _ => ?_)
      refine tameOk_bind ?_ (fun ex => ?_)
      · cases hex : env.collExistsRes with
        | ok b => exact tameOk_sdkOp_ok _ b rfl
        | error e => rw [existsCallRaises, hex] at hok; cases hok
      · refine tameOk_ite (tameOk_emitM _) ?_
        refine tameOk_bind (tameOk_emitWarnings _) (fun _ => ?_)
        refine tameOk_bind (tameOk_vecCfgOf _ _ _) (fun vc => ?_)
        refine tameOk_pyTry ?_ (fun e => tameOk_ite (tameOk_emitM _) (tameOk_emitM _))
        exact tame_bind (tame_sdkOp _ _ rfl) (fun _ => (tameOk_emitM _).1)
    exact tameOk_step hto c
  · intro e he
    unfold collCreateBody
    simp [he, cliBind_apply, CliM.bind, emitM, emit, sdkOp]

theorem runHandler_spec (env : Env) (a : Args) :
    ((runHandler env a false).trace.all goodCfg = true) ∧
    (connectFails env = true →
      (runHandler env a false).res = .exited 1 ∧
      (runHandler env a false).client = false ∧
      hasClientSet (runHandler env a false).trace = false) ∧
    (connectFails env = false →
      (runHandler env a false).res = expectedHandlerRes env a ∧
      (runHandler env a false).client = true) := by
  obtain ⟨url, rk, gh, gp, cf, rec, cmd⟩ := a
  cases cmd with
  | collCreate name desc prop vec vo vs rf sh =>
    obtain ⟨cgood, cok, cfail⟩ := connect_spec env url rk gh gp
    obtain ⟨bok, braise⟩ := collCreateBody_spec env name desc prop vec vo vs rf sh true
    have hrw : runHandler env ⟨url, rk, gh, gp, cf, rec,
        .collCreate name desc prop vec vo vs rf sh⟩ =
        (connect_to_weaviate env url rk gh gp >>= fun _ =>
          collCreateBody env name desc prop vec vo vs rf sh) := rfl
    rw [hrw]
    cases hcf : connectFails env with
    | true =>
      obtain ⟨hres, hcl, hset⟩ := cfail hcf
      have hstep : connect_to_weaviate env url rk gh gp false =
          ⟨.exited 1, false, (connect_to_weaviate env url rk gh gp false).trace⟩ := by
        rw [step_eta (connect_to_weaviate env url rk gh gp) false, hres, hcl]
      rw [bind_step_exited hstep]
      refine ⟨cgood, ?_, ?_⟩
      · intro h
        exact ⟨rfl, rfl, hset⟩
      · intro h
        cases h
    | false =>
      obtain ⟨hres, hcl⟩ := cok hcf
      have hstep : connect_to_weaviate env url rk gh gp false =
          ⟨.ok (), true, (connect_to_weaviate env url rk gh gp false).trace⟩ := by
        rw [step_eta (connect_to_weaviate env url rk gh gp) false, hres, hcl]
      cases hex : env.collExistsRes with
      | ok b =>
        have hokh : existsCallRaises env = false := by rw [existsCallRaises, hex]
        obtain ⟨t2, hb2, hset2, hgood2⟩ := bok hokh
        rw [bind_step_ok hstep, hb2]
        refine ⟨?_, ?_, ?_⟩
        · simp [List.all_append, cgood, hgood2]
        · intro h
          cases h
        · intro h
          refine ⟨?_, rfl⟩
          show PyResult.ok () = expectedHandlerRes env _
          rw [expectedHandlerRes]
          simp [isCollCreateCmd, hex]
      | error e =>
        have hb2 := braise e hex
        rw [bind_step_ok hstep, hb2]
        refine ⟨?_, ?_, ?_⟩
        · simp [List.all_append, cgood, goodCfg]
        · intro h
          cases h
        · intro h
          refine ⟨?_, rfl⟩
          show PyResult.raised e = expectedHandlerRes env _
          rw [expectedHandlerRes]
          simp [isCollCreateCmd, hex]
  | collDelete name =>
    have h := connect_then_spec env url rk gh gp (tameOk_collDeleteBody env name)
    exact ⟨h.1, h.2.1, fun hcf => ⟨((h.2.2) hcf).1.trans rfl, ((h.2.2) hcf).2⟩⟩
  | collList detailed =>
    have h := connect_then_spec env url rk gh gp (tameOk_collListBody env detailed)
    exact ⟨h.1, h.2.1, fun hcf => ⟨((h.2.2) hcf).1.trans rfl, ((h.2.2) hcf).2⟩⟩
  | collDescribe name =>
    have h := connect_then_spec env url rk gh gp (tameOk_collDescribeBody env name)
    exact ⟨h.1, h.2.1, fun hcf => ⟨((h.2.2) hcf).1.trans rfl, ((h.2.2) hcf).2⟩⟩
  | userCreate user_id role =>
    have h := connect_then_spec env url rk gh gp (tameOk_userCreateBody env user_id role rec)
    exact ⟨h.1, h.2.1, fun hcf => ⟨((h.2.2) hcf).1.trans rfl, ((h.2.2) hcf).2⟩⟩
  | userDelete user_id =>
    have h := connect_then_spec env url rk gh gp (tameOk_userDeleteBody env user_id)
    exact ⟨h.1, h.2.1, fun hcf => ⟨((h.2.2) hcf).1.trans rfl, ((h.2.2) hcf).2⟩⟩
  | userList =>
    have h := connect_then_spec env url rk gh gp (tameOk_userListBody env)
    exact ⟨h.1, h.2.1, fun hcf => ⟨((h.2.2) hcf).1.trans rfl, ((h.2.2) hcf).2⟩⟩
  | userUpdateRoles user_id role =>
    have h := connect_then_spec env url rk gh gp (tameOk_userUpdateRolesBody env user_id role)
    exact ⟨h.1, h.2.1, fun hcf => ⟨((h.2.2) hcf).1.trans rfl, ((h.2.2) hcf).2⟩⟩
  | roleCreate rn cp adC adR adU adD acC acR acU acD =>
    have h := connect_then_spec env url rk gh gp
      (tameOk_roleCreateBody env rn cp adC adR adU adD acC acR acU acD)
    exact ⟨h.1, h.2.1, fun hcf => ⟨((h.2.2) hcf).1.trans rfl, ((h.2.2) hcf).2⟩⟩
  | roleDelete rn =>
    have h := connect_then_spec env url rk gh gp (tameOk_roleDeleteBody env rn)
    exact ⟨h.1, h.2.1, fun hcf => ⟨((h.2.2) hcf).1.trans rfl, ((h.2.2) hcf).2⟩⟩
  | roleGet rn =>
    have h := connect_then_spec env url rk gh gp (tameOk_roleGetBody env rn)
    exact ⟨h.1, h.2.1, fun hcf => ⟨((h.2.2) hcf).1.trans rfl, ((h.2.2) hcf).2⟩⟩
  | roleList detailed =>
    have h := connect_then_spec env url rk gh gp (tameOk_roleListBody env detailed)
    exact ⟨h.1, h.2.1, fun hcf => ⟨((h.2.2) hcf).1.trans rfl, ((h.2.2) hcf).2⟩⟩

theorem pcv_spec (env : Env) (c : Bool) :
    (print_client_version env c).res = .ok () ∧
    (print_client_version env c).client = c ∧
    hasClientSet (print_client_version env c).trace = false ∧
    (print_client_version env c).trace.all goodCfg = true := by
  unfold print_client_version
  by_cases h : strStartsWith env.clientVersionStr "4." = true <;>
    simp [h, cliBind_apply, CliM.bind, cliPure_apply, emitM, emit,
      hasClientSet, isClientSetEv, goodCfg]

theorem loadCfg_spec (env : Env) (p : String) (c : Bool) :
    (load_config_from_yaml env p c).res = .ok (cfgLoadVal env) ∧
    (load_config_from_yaml env p c).client = c ∧
    hasClientSet (load_config_from_yaml env p c).trace = false ∧
    (load_config_from_yaml env p c).trace.all goodCfg = true := by
  unfold load_config_from_yaml cfgLoadVal
  cases h : env.yamlLoad with
  | ok oc =>
    cases oc <;>
      simp [h, cliBind_apply, CliM.bind, cliPure_apply, emitM, emit,
        hasClientSet, isClientSetEv, goodCfg]
  | error le =>
    cases le <;>
      simp [h, cliBind_apply, CliM.bind, cliPure_apply, emitM, emit,
        hasClientSet, isClientSetEv, goodCfg]

theorem close_connection_true (env : Env) :
    (close_connection env true).res = .ok () ∧
    (close_connection env true).client = false ∧
    hasCloseCall (close_connection env true).trace = true ∧
    hasClientSet (close_connection env true).trace = false ∧
    (close_connection env true).trace.all goodCfg = true := by
  unfold close_connection
  cases env.closeRes <;>
    simp [hasCloseCall, isCloseEv, hasClientSet, isClientSetEv, goodCfg]

theorem close_connection_false (env : Env) :
    close_connection env false = ⟨.ok (), false, []⟩ := by
  unfold close_connection
  simp

theorem resolveRootKey_spec (env : Env) (k0 : Option String) :
    ((resolveRootKey env k0 false).client = false) ∧
    (hasClientSet (resolveRootKey env k0 false).trace = false) ∧
    ((resolveRootKey env k0 false).trace.all goodCfg = true) ∧
    (credMissing env k0 = true → (resolveRootKey env k0 false).res = .exited 1) ∧
    (credMissing env k0 = false →
      (resolveRootKey env k0 false).res = .ok (resolvedKeyVal env k0)) := by
  unfold resolveRootKey credMissing resolvedKeyVal
  by_cases h0 : falsyOptStr k0 = true
  · by_cases h1 : falsyOptStr (envKeyLookup env) = true
    · cases hg : env.getpassRes with
      | ok s =>
        have hfs : falsyOptStr (some s) = (s == "") := rfl
        by_cases hs : s == ""
        · simp [h0, h1, hg, hs, hfs, cliBind_apply, CliM.bind, cliPure_apply, emitM, emit,
            promptKeyM, pyTry, close_connection, exitP,
            hasClientSet, isClientSetEv, goodCfg]
        · simp [h0, h1, hg, hs, hfs, cliBind_apply, CliM.bind, cliPure_apply, emitM, emit,
            promptKeyM, pyTry, close_connection, exitP,
            hasClientSet, isClientSetEv, goodCfg]
      | error e =>
        simp [h0, h1, hg, cliBind_apply, CliM.bind, cliPure_apply, emitM, emit,
          promptKeyM, pyTry, close_connection, exitP, isWQE,
          hasClientSet, isClientSetEv, goodCfg]
    · simp [h0, h1, cliBind_apply, CliM.bind, cliPure_apply, emitM, emit,
        hasClientSet, isClientSetEv, goodCfg]
  · simp [h0, cliBind_apply, CliM.bind, cliPure_apply, emitM, emit,
      hasClientSet, isClientSetEv, goodCfg]

theorem pyFinally_step_finok {α : Type} {body : CliM α} {fin : CliM Unit}
    {c cl cl2 : Bool} {r : PyResult α} {t t2 : List Event}
    (hb : body c = ⟨r, cl, t⟩) (hf : fin cl = ⟨.ok (), cl2, t2⟩) :
    pyFinally body fin c = ⟨r, cl2, t ++ t2⟩ := by
  unfold pyFinally
  simp [hb, hf]

theorem closedAfterSet_of_noset :
    ∀ {t : List Event}, hasClientSet t = false → closedAfterSet t = true := by
  intro t
  induction t with
  | nil => intro h; rfl
  | cons e rest ih =>
    intro h
    rw [hasClientSet, List.any_cons, Bool.or_eq_false_iff] at h
    obtain ⟨h1, h2⟩ := h
    rw [closedAfterSet]
    simp [h1, ih h2]

theorem closedAfterSet_append_close {t2 : List Event}
    (hc : hasCloseCall t2 = true) (h2 : closedAfterSet t2 = true) :
    ∀ (t1 : List Event), closedAfterSet (t1 ++ t2) = true := by
  intro t1
  induction t1 with
  | nil => simpa
  | cons e rest ih =>
    rw [List.cons_append, closedAfterSet]
    have hcc : hasCloseCall (rest ++ t2) = true := by
      rw [hasCloseCall, List.any_append]
      rw [hasCloseCall] at hc
      simp [hc]
    by_cases hh : isClientSetEv e = true <;> simp [hh, hcc, ih]

theorem processExit_eq (s : Step Unit) : processExit s = processExitR s.res := by
  obtain ⟨r, c, t⟩ := s
  cases r <;> rfl

theorem closedAfterSet_append_noset {t2 : List Event} (h2 : closedAfterSet t2 = true) :
    ∀ t1 : List Event, hasClientSet t1 = false → closedAfterSet (t1 ++ t2) = true := by
  intro t1
  induction t1 with
  | nil => intro _; simpa
  | cons e rest ih =>
    intro h1
    rw [hasClientSet, List.any_cons, Bool.or_eq_false_iff] at h1
    obtain ⟨ha, hb⟩ := h1
    rw [List.cons_append, closedAfterSet]
    simp [ha, ih hb]

theorem mainDispatch_spec (env : Env) (a : Args) :
    ((mainDispatch env a false).trace.all goodCfg = true) ∧
    (closedAfterSet (mainDispatch env a false).trace = true) ∧
    ((processExit (mainDispatch env a false) != 0) =
      (connectFails env || (isCollCreateCmd a.cmd && existsCallRaises env))) := by
  obtain ⟨hgood, hfail, hok⟩ := runHandler_spec env a
  unfold mainDispatch
  cases hcf : connectFails env with
  | true =>
    obtain ⟨hres, hcl, hset⟩ := hfail hcf
    have hb : runHandler env a false =
        ⟨.exited 1, false, (runHandler env a false).trace⟩ := by
      rw [step_eta (runHandler env a) false, hres, hcl]
    rw [pyFinally_step_finok hb (close_connection_false env)]
    refine ⟨?_, ?_, ?_⟩
    · simp [List.all_append, hgood]
    · refine closedAfterSet_of_noset ?_
      rw [hasClientSet, List.any_append]
      rw [hasClientSet] at hset
      simp [hset, hasClientSet, isClientSetEv]
    · simp [processExit]
  | false =>
    obtain ⟨hres, hcl⟩ := hok hcf
    have hb : runHandler env a false =
        ⟨expectedHandlerRes env a, true, (runHandler env a false).trace⟩ := by
      rw [step_eta (runHandler env a) false, hres, hcl]
    obtain ⟨fres, fcl, fclose, fset, fgood⟩ := close_connection_true env
    have hf : close_connection env true =
        ⟨.ok (), false, (close_connection env true).trace⟩ := by
      rw [step_eta (close_connection env) true, fres, fcl]
    rw [pyFinally_step_finok hb hf]
    refine ⟨?_, ?_, ?_⟩
    · simp [List.all_append, hgood, fgood]
    · exact closedAfterSet_append_close fclose (closedAfterSet_of_noset fset) _
    · rw [processExit_eq]
      rw [expectedHandlerRes]
      by_cases hic : isCollCreateCmd a.cmd = true
      · cases hex : env.collExistsRes with
        | ok b => simp [hic, hex, processExitR, existsCallRaises]
        | error e => simp [hic, hex, processExitR, existsCallRaises]
      · simp [hic, processExitR]

theorem mainTail_spec (env : Env) (cli : Args) (cfg : Config) :
    ((mainTail env cli cfg false).trace.all goodCfg = true) ∧
    (closedAfterSet (mainTail env cli cfg false).trace = true) ∧
    ((processExit (mainTail env cli cfg false) != 0) =
      (credMissing env (finalApiKeyOf cli.root_key cfg) || connectFails env ||
        (isCollCreateCmd cli.cmd && existsCallRaises env))) := by
  obtain ⟨rcl, rset, rgood, rmiss, rok⟩ :=
    resolveRootKey_spec env (finalApiKeyOf cli.root_key cfg)
  unfold mainTail
  cases hcm : credMissing env (finalApiKeyOf cli.root_key cfg) with
  | true =>
    have hs : resolveRootKey env (finalApiKeyOf cli.root_key cfg) false =
        ⟨.exited 1, false,
          (resolveRootKey env (finalApiKeyOf cli.root_key cfg) false).trace⟩ := by
      rw [step_eta (resolveRootKey env (finalApiKeyOf cli.root_key cfg)) false,
        rmiss hcm, rcl]
    rw [bind_step_exited hs]
    exact ⟨rgood, closedAfterSet_of_noset rset, by simp [processExit]⟩
  | false =>
    have hs : resolveRootKey env (finalApiKeyOf cli.root_key cfg) false =
        ⟨.ok (resolvedKeyVal env (finalApiKeyOf cli.root_key cfg)), false,
          (resolveRootKey env (finalApiKeyOf cli.root_key cfg) false).trace⟩ := by
      rw [step_eta (resolveRootKey env (finalApiKeyOf cli.root_key cfg)) false,
        rok hcm, rcl]
    obtain ⟨dgood, dclosed, dexit⟩ := mainDispatch_spec env
      (mergedArgs cli cfg (resolvedKeyVal env (finalApiKeyOf cli.root_key cfg)))
    rw [bind_step_ok hs]
    refine ⟨?_, ?_, ?_⟩
    · rw [List.all_append]
      rw [rgood]
      rw [Bool.true_and]
      exact dgood
    · exact closedAfterSet_append_noset dclosed _ rset
    · rw [processExit_eq]
      rw [processExit_eq] at dexit
      simp only [Bool.false_or]
      exact dexit

theorem cfgStage_spec (env : Env) (cli : Args) :
    (cfgStage env cli false).res = .ok (configOf env cli) ∧
    (cfgStage env cli false).client = false ∧
    hasClientSet (cfgStage env cli false).trace = false ∧
    (cfgStage env cli false).trace.all goodCfg = true := by
  unfold cfgStage configOf
  cases hc2 : cli.config_file with
  | some p =>
    obtain ⟨r2, c2, s2, g2⟩ := loadCfg_spec env p false
    exact ⟨r2, c2, s2, g2⟩
  | none =>
    exact ⟨rfl, rfl, rfl, rfl⟩

theorem mainRun_spec (env : Env) (cli : Args) :
    ((mainRun env cli).trace.all goodCfg = true) ∧
    (closedAfterSet (mainRun env cli).trace = true) ∧
    ((processExit (mainRun env cli) != 0) =
      (credMissing env (mergedKey0 env cli) || connectFails env ||
        (isCollCreateCmd cli.cmd && existsCallRaises env))) := by
  obtain ⟨p1res, p1cl, p1set, p1good⟩ := pcv_spec env false
  have hs1 : print_client_version env false =
      ⟨.ok (), false, (print_client_version env false).trace⟩ := by
    rw [step_eta (print_client_version env) false, p1res, p1cl]
  obtain ⟨c2res, c2cl, c2set, c2good⟩ := cfgStage_spec env cli
  have hs2 : cfgStage env cli false =
      ⟨.ok (configOf env cli), false, (cfgStage env cli false).trace⟩ := by
    rw [step_eta (cfgStage env cli) false, c2res, c2cl]
  obtain ⟨tgood, tclosed, texit⟩ := mainTail_spec env cli (configOf env cli)
  unfold mainRun mainM
  rw [bind_step_ok hs1]
  have hmid : (cfgStage env cli >>= fun config_from_file =>
      mainTail env cli config_from_file) false =
      ⟨(mainTail env cli (configOf env cli) false).res,
        (mainTail env cli (configOf env cli) false).client,
        (cfgStage env cli false).trace ++
          (mainTail env cli (configOf env cli) false).trace⟩ := by
    rw [bind_step_ok hs2]
  refine ⟨?_, ?_, ?_⟩
  · show ((print_client_version env false).trace ++
      ((cfgStage env cli >>= fun config_from_file =>
        mainTail env cli config_from_file) false).trace).all goodCfg = true
    rw [hmid]
    simp only [List.all_append]
    rw [p1good, c2good, tgood]
    rfl
  · show closedAfterSet ((print_client_version env false).trace ++
      ((cfgStage env cli >>= fun config_from_file =>
        mainTail env cli config_from_file) false).trace) = true
    rw [hmid]
    refine closedAfterSet_append_noset ?_ _ p1set
    exact closedAfterSet_append_noset tclosed _ c2set
  · show (processExit ⟨((cfgStage env cli >>= fun config_from_file =>
        mainTail env cli config_from_file) false).res, _, _⟩ != 0) = _
    rw [processExit_eq]
    rw [hmid]
    rw [processExit_eq] at texit
    exact texit

theorem domCount_nil : domCount [] = 0 := rfl

theorem domCount_append (t1 t2 : List Event) :
    domCount (t1 ++ t2) = domCount t1 + domCount t2 := by
  unfold domCount
  rw [List.filter_append, List.length_append]

theorem domCount_cons (e : Event) (t : List Event) :
    domCount (e :: t) = (if isDomEvent e then 1 else 0) + domCount t := by
  unfold domCount
  rw [List.filter_cons]
  by_cases h : isDomEvent e = true <;> simp [h, Nat.add_comm]

theorem domLe_emitM (m : Msg) : DomLe 0 (emitM m) := by
  intro c
  simp [emitM, emit, domCount, isDomEvent, List.filter]

theorem domLe_pure {α : Type} (a : α) : DomLe 0 (pure a : CliM α) := by
  intro c
  simp [cliPure_apply, domCount, List.filter]

theorem domLe_readInput (env : Env) : DomLe 0 (readInput env) := by
  intro c
  simp [readInput, domCount, isDomEvent, List.filter]

theorem domLe_sdkOp {α : Type} (call : SDKCall) (r : Except Exc α) :
    DomLe 1 (sdkOp call r) := by
  intro c
  cases r <;> unfold sdkOp <;>
    simp [domCount_cons, domCount_nil] <;> split <;> simp

theorem domLe_mono {α : Type} {m : CliM α} {n k : Nat} (h : n ≤ k)
    (hm : DomLe n m) : DomLe k m :=
  fun c => le_trans (hm c) h

theorem domLe_bind {α β : Type} {m : CliM α} {k : α → CliM β} {n j : Nat}
    (hm : DomLe n m) (hk : ∀ a, DomLe j (k a)) : DomLe (n + j) (m >>= k) := by
  intro c
  rw [cliBind_apply]
  unfold CliM.bind
  cases hres : (m c).res with
  | ok a =>
    simp only [hres]
    rw [domCount_append]
    exact Nat.add_le_add (hm c) (hk a (m c).client)
  | exited nn =>
    simp only [hres]
    exact le_trans (hm c) (Nat.le_add_right n j)
  | raised e =>
    simp only [hres]
    exact le_trans (hm c) (Nat.le_add_right n j)

theorem domLe_pyTry {α : Type} {body : CliM α} {handler : Exc → CliM α} {n j : Nat}
    (hb : DomLe n body) (hh : ∀ e, DomLe j (handler e)) :
    DomLe (n + j) (pyTry body handler) := by
  intro c
  unfold pyTry
  cases hres : (body c).res with
  | raised e =>
    simp only [hres]
    rw [domCount_append]
    exact Nat.add_le_add (hb c) (hh e (body c).client)
  | ok a =>
    simp only [hres]
    exact le_trans (hb c) (Nat.le_add_right n j)
  | exited nn =>
    simp only [hres]
    exact le_trans (hb c) (Nat.le_add_right n j)

theorem domLe_ite {α : Type} {p : Prop} [Decidable p] {m1 m2 : CliM α} {n : Nat}
    (h1 : DomLe n m1) (h2 : DomLe n m2) : DomLe n (if p then m1 else m2) := by
  by_cases h : p <;> simp [h] <;> assumption

theorem domLe_emitWarnings (l : List Msg) : DomLe 0 (emitWarnings l) := by
  induction l with
  | nil => exact domLe_pure ()
  | cons m rest ih =>
    exact domLe_mono (by omega) (domLe_bind (domLe_emitM m) (fun _ => ih))

theorem domLe_vecCfgOf (v : Option String) (vo : Option VOpts)
    (vs : Option (List String)) : DomLe 0 (vecCfgOf v vo vs) := by
  unfold vecCfgOf
  cases v with
  | none => exact domLe_pure none
  | some s =>
    refine domLe_ite (domLe_pure none) ?_
    refine domLe_ite (domLe_pure _) ?_
    refine domLe_ite (domLe_pure _) ?_
    refine domLe_ite (domLe_pure _) ?_
    refine domLe_ite (domLe_pure _) ?_
    exact domLe_mono (by omega) (domLe_bind (domLe_emitM _) (fun _ => domLe_pure none))

theorem connectExcHandler_dom (env : Env) (e : Exc) :
    ∀ c, domCount (connectExcHandler env e c).trace = 0 := by
  intro c
  unfold connectExcHandler
  by_cases h1 : isValueErr e = true <;> by_cases h2 : isWCE e = true <;>
    by_cases h3 : isWSE e = true <;> cases c <;> cases hcl : env.closeRes <;>
    simp [h1, h2, h3, hcl, cliBind_apply, CliM.bind, emitM, emit, closeIfSet,
      clearClient, exitP, domCount, isDomEvent, List.filter]

theorem connectTryBody_dom (env : Env) (k gh : Option String) (gp : Option Int) :
    domCount (connectTryBody env k gh gp false).trace = 0 := by
  unfold connectTryBody
  cases hu : env.urlParse with
  | error e =>
    simp [hu, cliBind_apply, CliM.bind, cliPure_apply, getClient, emitM, emit,
      liftExc, sdkOp, setClientOn, clearClient, closeNewClient, exitP, pyTry,
      domCount, isDomEvent, isDomCall, List.filter]
  | ok pu =>
    cases hp : parse_http_url_details pu with
    | error e =>
      simp [hu, hp, cliBind_apply, CliM.bind, cliPure_apply, getClient, emitM, emit,
        liftExc, sdkOp, setClientOn, clearClient, closeNewClient, exitP, pyTry,
        domCount, isDomEvent, isDomCall, List.filter]
    | ok hps =>
      obtain ⟨http_host, http_port, http_secure⟩ := hps
      cases hc : env.connectRes with
      | error e =>
        simp [hu, hp, hc, cliBind_apply, CliM.bind, cliPure_apply, getClient, emitM,
          emit, liftExc, sdkOp, setClientOn, clearClient, closeNewClient, exitP, pyTry,
          domCount, isDomEvent, isDomCall, List.filter]
      | ok u =>
        cases hr : env.isReadyRes with
        | error e =>
          simp [hu, hp, hc, hr, cliBind_apply, CliM.bind, cliPure_apply, getClient,
            emitM, emit, liftExc, sdkOp, setClientOn, clearClient, closeNewClient,
            exitP, pyTry, domCount, isDomEvent, isDomCall, List.filter]
        | ok b =>
          cases b with
          | true =>
            simp [hu, hp, hc, hr, cliBind_apply, CliM.bind, cliPure_apply, getClient,
              emitM, emit, liftExc, sdkOp, setClientOn, clearClient, closeNewClient,
              exitP, pyTry, domCount, isDomEvent, isDomCall, List.filter]
          | false =>
            cases hl : env.isLiveRes with
            | error e2 =>
              cases hcl : env.closeRes with
              | ok u2 =>
                simp [hu, hp, hc, hr, hl, hcl, cliBind_apply, CliM.bind, cliPure_apply,
                  getClient, emitM, emit, liftExc, sdkOp, setClientOn, clearClient,
                  closeNewClient, exitP, pyTry, domCount, isDomEvent, isDomCall,
                  List.filter]
              | error e3 =>
                simp [hu, hp, hc, hr, hl, hcl, cliBind_apply, CliM.bind, cliPure_apply,
                  getClient, emitM, emit, liftExc, sdkOp, setClientOn, clearClient,
                  closeNewClient, exitP, pyTry, domCount, isDomEvent, isDomCall,
                  List.filter]
            | ok lv =>
              cases hcl : env.closeRes with
              | ok u2 =>
                simp [hu, hp, hc, hr, hl, hcl, cliBind_apply, CliM.bind, cliPure_apply,
                  getClient, emitM, emit, liftExc, sdkOp, setClientOn, clearClient,
                  closeNewClient, exitP, pyTry, domCount, isDomEvent, isDomCall,
                  List.filter]
              | error e3 =>
                simp [hu, hp, hc, hr, hl, hcl, cliBind_apply, CliM.bind, cliPure_apply,
                  getClient, emitM, emit, liftExc, sdkOp, setClientOn, clearClient,
                  closeNewClient, exitP, pyTry, domCount, isDomEvent, isDomCall,
                  List.filter]

theorem connect_dom0 (env : Env) (url key gh : Option String) (gp : Option Int) :
    domCount (connect_to_weaviate env url key gh gp false).trace = 0 := by
  have hconn : connect_to_weaviate env url key gh gp false =
      ⟨(pyTry (connectTryBody env (if falsyOptStr key then none else key) gh gp)
          (connectExcHandler env) false).res,
        (pyTry (connectTryBody env (if falsyOptStr key then none else key) gh gp)
          (connectExcHandler env) false).client,
        Event.printMsg (.attemptConnect url) ::
          (pyTry (connectTryBody env (if falsyOptStr key then none else key) gh gp)
            (connectExcHandler env) false).trace⟩ := by
    unfold connect_to_weaviate
    simp [cliBind_apply, CliM.bind, getClient, emitM, emit]
  rw [hconn]
  have hstep : domCount (Event.printMsg (Msg.attemptConnect url) ::
      (pyTry (connectTryBody env (if falsyOptStr key then none else key) gh gp)
        (connectExcHandler env) false).trace) =
      domCount ((pyTry (connectTryBody env (if falsyOptStr key then none else key) gh gp)
        (connectExcHandler env) false).trace) := by
    rw [domCount_cons]
    simp [isDomEvent]
  rw [hstep]
  have hbdom := connectTryBody_dom env (if falsyOptStr key then none else key) gh gp
  cases hres : (connectTryBody env (if falsyOptStr key then none else key) gh gp false).res with
  | ok a =>
    have hb : connectTryBody env (if falsyOptStr key then none else key) gh gp false =
        ⟨.ok a, (connectTryBody env (if falsyOptStr key then none else key) gh gp false).client,
          (connectTryBody env (if falsyOptStr key then none else key) gh gp false).trace⟩ := by
      rw [step_eta (connectTryBody env (if falsyOptStr key then none else key) gh gp) false, hres]
    rw [pyTry_step_ok hb]
    simpa using hbdom
  | exited n =>
    have hb : connectTryBody env (if falsyOptStr key then none else key) gh gp false =
        ⟨.exited n, (connectTryBody env (if falsyOptStr key then none else key) gh gp false).client,
          (connectTryBody env (if falsyOptStr key then none else key) gh gp false).trace⟩ := by
      rw [step_eta (connectTryBody env (if falsyOptStr key then none else key) gh gp) false, hres]
    rw [pyTry_step_exited hb]
    simpa using hbdom
  | raised e =>
    have hb : connectTryBody env (if falsyOptStr key then none else key) gh gp false =
        ⟨.raised e, (connectTryBody env (if falsyOptStr key then none else key) gh gp false).client,
          (connectTryBody env (if falsyOptStr key then none else key) gh gp false).trace⟩ := by
      rw [step_eta (connectTryBody env (if falsyOptStr key then none else key) gh gp) false, hres]
    rw [pyTry_step_raised hb]
    show domCount (_ ++ _) = 0
    rw [domCount_append, hbdom]
    rw [connectExcHandler_dom env e _]

theorem connect_bind_domle (env : Env) (url rk gh : Option String) (gp : Option Int)
    {body : CliM Unit} {n : Nat} (hb : DomLe n body) :
    domCount ((connect_to_weaviate env url rk gh gp >>= fun _ => body) false).trace ≤ n := by
  rw [cliBind_apply]
  unfold CliM.bind
  cases hres : (connect_to_weaviate env url rk gh gp false).res with
  | ok u =>
    simp only [hres]
    rw [domCount_append, connect_dom0]
    simpa using hb (connect_to_weaviate env url rk gh gp false).client
  | exited nn =>
    simp only [hres]
    rw [connect_dom0]
    omega
  | raised e =>
    simp only [hres]
    rw [connect_dom0]
    omega

theorem domLe_collCreateBody (env : Env) (n d : String) (pr : Option (List String))
    (v : Option String) (vo : Option VOpts) (vs : Option (List String))
    (rf sh : Option Int) : DomLe 2 (collCreateBody env n d pr v vo vs rf sh) := by
  unfold collCreateBody
  refine domLe_mono ?_ (domLe_bind (domLe_emitM _) (fun _ =>
    domLe_bind (domLe_sdkOp _ _) (fun ex =>
      domLe_ite (domLe_mono ?_ (domLe_emitM _))
        (domLe_bind (domLe_emitWarnings _) (fun _ =>
          domLe_bind (domLe_vecCfgOf _ _ _) (fun vc =>
            domLe_pyTry
              (domLe_bind (domLe_sdkOp _ _) (fun _ => domLe_emitM _))
              (fun e => domLe_ite (domLe_emitM _) (domLe_emitM _)))))))) <;> omega

theorem domLe_collDeleteBody (env : Env) (n : String) :
    DomLe 2 (collDeleteBody env n) := by
  unfold collDeleteBody
  refine domLe_mono ?_ (domLe_bind (domLe_readInput env) (fun confirm =>
    domLe_ite (domLe_mono ?_ (domLe_emitM _))
      (domLe_bind (domLe_emitM _) (fun _ =>
        domLe_pyTry (domLe_bind (domLe_sdkOp _ _) (fun _ => domLe_emitM _))
          (fun e => domLe_ite (domLe_emitM _) (domLe_emitM _)))))) <;> omega

theorem domLe_userDeleteBody (env : Env) (u : String) :
    DomLe 2 (userDeleteBody env u) := by
  unfold userDeleteBody
  refine domLe_mono ?_ (domLe_bind (domLe_readInput env) (fun confirm =>
    domLe_ite (domLe_mono ?_ (domLe_emitM _))
      (domLe_bind (domLe_emitM _) (fun _ =>
        domLe_pyTry (domLe_bind (domLe_sdkOp _ _) (fun _ => domLe_emitM _))
          (fun e => domLe_ite (domLe_ite (domLe_emitM _) (domLe_emitM _))
            (domLe_emitM _)))))) <;> omega

theorem domLe_userUpdateRolesBody (env : Env) (u : String)
    (role : Option (List String)) : DomLe 2 (userUpdateRolesBody env u role) := by
  unfold userUpdateRolesBody
  refine domLe_mono ?_ (domLe_bind (domLe_emitM _) (fun _ =>
    domLe_pyTry (domLe_bind (domLe_sdkOp _ _) (fun _ => domLe_emitM _))
      (fun e => domLe_ite (domLe_emitM _) (domLe_emitM _)))) <;> omega

theorem domLe_roleCreateBody (env : Env) (rn : String) (cp : List String)
    (adC adR adU adD acC acR acU acD : Bool) :
    DomLe 2 (roleCreateBody env rn cp adC adR adU adD acC acR acU acD) := by
  unfold roleCreateBody
  refine domLe_mono ?_ (domLe_bind (domLe_emitM _) (fun _ =>
    domLe_pyTry
      (domLe_bind (domLe_sdkOp _ _) (fun ex =>
        domLe_ite (domLe_mono ?_ (domLe_emitM _))
          (domLe_bind (domLe_emitM _) (fun _ =>
            domLe_bind (domLe_sdkOp _ _) (fun _ => domLe_emitM _)))))
      (fun e => domLe_ite (domLe_emitM _) (domLe_emitM _)))) <;> omega

theorem domLe_roleDeleteBody (env : Env) (rn : String) :
    DomLe 2 (roleDeleteBody env rn) := by
  unfold roleDeleteBody
  refine domLe_mono ?_ (domLe_bind (domLe_readInput env) (fun confirm =>
    domLe_ite (domLe_mono ?_ (domLe_emitM _))
      (domLe_bind (domLe_emitM _) (fun _ =>
        domLe_pyTry (domLe_bind (domLe_sdkOp _ _) (fun _ => domLe_emitM _))
          (fun e => domLe_ite (domLe_ite (domLe_emitM _) (domLe_emitM _))
            (domLe_emitM _)))))) <;> omega

theorem domLe_roleGetBody (env : Env) (rn : String) :
    DomLe 2 (roleGetBody env rn) := by
  unfold roleGetBody
  have hrole : ∀ role : Option RoleView, DomLe 0
      (match role with
       | some r => emitM (Msg.roleInfo r)
       | none => emitM (Msg.roleNotFoundNone rn)) := by
    intro role
    cases role with
    | some r => exact domLe_emitM _
    | none => exact domLe_emitM _
  refine domLe_mono ?_ (domLe_bind (domLe_emitM _) (fun _ =>
    domLe_pyTry (domLe_bind (domLe_sdkOp _ _) (fun role => hrole role))
      (fun e => domLe_ite (domLe_ite (domLe_emitM _) (domLe_emitM _))
        (domLe_emitM _)))) <;> omega

theorem runHandler_dom2 (env : Env) (a : Args) (h : cmdAtMostTwo a.cmd = true) :
    domCount (runHandler env a false).trace ≤ 2 := by
  obtain ⟨url, rk, gh, gp, cf, rec, cmd⟩ := a
  cases cmd with
  | collCreate n d pr v vo vs rf sh =>
    exact connect_bind_domle env url rk gh gp (domLe_collCreateBody env n d pr v vo vs rf sh)
  | collDelete n =>
    exact connect_bind_domle env url rk gh gp (domLe_collDeleteBody env n)
  | collList detailed => simp [cmdAtMostTwo] at h
  | collDescribe n => simp [cmdAtMostTwo] at h
  | userCreate u role => simp [cmdAtMostTwo] at h
  | userDelete u =>
    exact connect_bind_domle env url rk gh gp (domLe_userDeleteBody env u)
  | userList => simp [cmdAtMostTwo] at h
  | userUpdateRoles u role =>
    exact connect_bind_domle env url rk gh gp (domLe_userUpdateRolesBody env u role)
  | roleCreate rn cp adC adR adU adD acC acR acU acD =>
    exact connect_bind_domle env url rk gh gp
      (domLe_roleCreateBody env rn cp adC adR adU adD acC acR acU acD)
  | roleDelete rn =>
    exact connect_bind_domle env url rk gh gp (domLe_roleDeleteBody env rn)
  | roleGet rn =>
    exact connect_bind_domle env url rk gh gp (domLe_roleGetBody env rn)
  | roleList detailed => simp [cmdAtMostTwo] at h

theorem isDel_imp_isDom (e : Event) : isDeleteEv e = true → isDomEvent e = true := by
  intro h
  cases e with
  | sdk call =>
    cases call <;> simp [isDeleteEv, isDeleteCall, isDomEvent, isDomCall] at h ⊢
  | printMsg m => simp [isDeleteEv] at h
  | clientSet => simp [isDeleteEv] at h
  | closeCall => simp [isDeleteEv] at h
  | inputRead => simp [isDeleteEv] at h
  | promptKey => simp [isDeleteEv] at h

theorem noDel_of_dom0 : ∀ {t : List Event}, domCount t = 0 → hasDeleteCall t = false := by
  intro t
  induction t with
  | nil => intro _; rfl
  | cons e rest ih =>
    intro h
    rw [domCount_cons] at h
    by_cases hd : isDomEvent e = true
    · rw [if_pos hd] at h
      omega
    · rw [if_neg hd] at h
      simp only [Nat.zero_add] at h
      have he : isDeleteEv e = false := by
        by_cases hdel : isDeleteEv e = true
        · exact absurd (isDel_imp_isDom e hdel) hd
        · simpa using hdel
      rw [hasDeleteCall, List.any_cons, he]
      simp only [Bool.false_or]
      exact ih h

theorem connect_bind_nodel (env : Env) (url rk gh : Option String) (gp : Option Int)
    {body : CliM Unit} (hb : ∀ c, hasDeleteCall (body c).trace = false) :
    hasDeleteCall ((connect_to_weaviate env url rk gh gp >>= fun _ => body) false).trace = false := by
  have hcd : hasDeleteCall (connect_to_weaviate env url rk gh gp false).trace = false :=
    noDel_of_dom0 (connect_dom0 env url rk gh gp)
  rw [cliBind_apply]
  unfold CliM.bind
  cases hres : (connect_to_weaviate env url rk gh gp false).res with
  | ok u =>
    simp only [hres]
    show hasDeleteCall (_ ++ _) = false
    rw [hasDeleteCall, List.any_append]
    rw [hasDeleteCall] at hcd
    have hb2 := hb (connect_to_weaviate env url rk gh gp false).client
    rw [hasDeleteCall] at hb2
    simp [hcd, hb2]
  | exited nn =>
    simp only [hres]
    exact hcd
  | raised e =>
    simp only [hres]
    exact hcd

theorem collDeleteBody_cancel (env : Env) (name : String)
    (hc : (strLower env.confirmInput == "yes") = false) (c : Bool) :
    collDeleteBody env name c =
      ⟨.ok (), c, [Event.inputRead, Event.printMsg .collDeleteConfirmCancelled]⟩ := by
  have hc2 : ¬ (strLower env.confirmInput = "yes") := by simpa using hc
  unfold collDeleteBody
  simp [cliBind_apply, CliM.bind, readInput, emitM, emit, bne, hc2]

theorem userDeleteBody_cancel (env : Env) (u : String)
    (hc : (strLower env.confirmInput == "yes") = false) (c : Bool) :
    userDeleteBody env u c =
      ⟨.ok (), c, [Event.inputRead, Event.printMsg .userDeleteCancelled]⟩ := by
  have hc2 : ¬ (strLower env.confirmInput = "yes") := by simpa using hc
  unfold userDeleteBody
  simp [cliBind_apply, CliM.bind, readInput, emitM, emit, bne, hc2]

theorem roleDeleteBody_cancel (env : Env) (rn : String)
    (hc : (strLower env.confirmInput == "yes") = false) (c : Bool) :
    roleDeleteBody env rn c =
      ⟨.ok (), c, [Event.inputRead, Event.printMsg .roleDeleteCancelled]⟩ := by
  have hc2 : ¬ (strLower env.confirmInput = "yes") := by simpa using hc
  unfold roleDeleteBody
  simp [cliBind_apply, CliM.bind, readInput, emitM, emit, bne, hc2]

theorem collDescribeBody_success (env : Env) (name : String) (v : ConfigView)
    (hex : env.collExistsRes = .ok true) (hget : env.collGetRes = .ok ())
    (hcfg : env.collCfgFor name = .ok v) (c : Bool) :
    collDescribeBody env name c =
      ⟨.ok (), c, [Event.printMsg (.fetchingCollection name),
        Event.sdk (.collectionsExists name), Event.sdk (.collectionsGet name),
        Event.sdk (.configGet name),
        Event.printMsg (.jsonOut (describeDocOf env v))]⟩ := by
  unfold collDescribeBody describeDocOf
  cases htd : env.toDictRes <;>
    simp [hex, hget, hcfg, htd, cliBind_apply, CliM.bind, emitM, emit, sdkOp, pyTry]

theorem resolveRootKey_res (env : Env) (k0 : Option String) :
    (resolveRootKey env k0 false).res = expectedKeyRes env k0 := by
  obtain ⟨rcl, rset, rgood, rmiss, rok⟩ := resolveRootKey_spec env k0
  cases hcm : credMissing env k0 with
  | true =>
    rw [rmiss hcm]
    rw [credMissing] at hcm
    rw [Bool.and_eq_true, Bool.and_eq_true] at hcm
    obtain ⟨⟨h0, h1⟩, h2⟩ := hcm
    rw [expectedKeyRes]
    rw [h0, h1]
    simp only [Bool.not_true, Bool.false_eq_true, if_false]
    cases hg : env.getpassRes with
    | ok s =>
      rw [hg] at h2
      simp at h2
      simp [h2]
    | error e => simp
  | false =>
    rw [rok hcm]
    rw [credMissing] at hcm
    rw [expectedKeyRes, resolvedKeyVal]
    by_cases h0 : falsyOptStr k0 = true
    · by_cases h1 : falsyOptStr (envKeyLookup env) = true
      · rw [h0, h1] at hcm ⊢
        simp only [Bool.true_and] at hcm
        simp only [Bool.not_true, Bool.false_eq_true, if_false]
        cases hg : env.getpassRes with
        | ok s =>
          rw [hg] at hcm
          simp at hcm
          simp [hcm]
        | error e =>
          rw [hg] at hcm
          simp at hcm
      · have h1f : falsyOptStr (envKeyLookup env) = false := by simpa using h1
        rw [h0, h1f]
        simp
    · have h0f : falsyOptStr k0 = false := by simpa using h0
      rw [h0f]
      simp

theorem parse_secure (u : ParsedUrl) (hh : String) (pp : Int) (ss : Bool)
    (hp : parse_http_url_details u = .ok (hh, pp, ss)) :
    ss = (strLower u.scheme == "https") := by
  unfold parse_http_url_details at hp
  by_cases h1 : (strLower u.scheme != "http" && strLower u.scheme != "https") = true
  · rw [if_pos h1] at hp
    cases hp
  · rw [if_neg h1] at hp
    cases hhost : u.hostname with
    | none =>
      rw [hhost] at hp
      simp at hp
    | some h =>
      rw [hhost] at hp
      by_cases h2 : (h == "") = true
      · simp [h2] at hp
      · simp [h2] at hp
        exact hp.2.2.symm

theorem parsePropsLoop_eq (sdkAttr : String → Option DataType) (l : List String) :
    parsePropsLoop sdkAttr l =
      (l.filterMap (propParse1 sdkAttr), l.filterMap (propWarn1 sdkAttr)) := by
  induction l with
  | nil => rfl
  | cons p rest ih =>
    rw [parsePropsLoop, ih]
    cases hs : splitOnce ':' p with
    | none =>
      simp [List.filterMap_cons, hs, propParse1, propWarn1]
    | some nd =>
      obtain ⟨nm, dts⟩ := nd
      cases hd : dataTypeOfUpper sdkAttr (strUpper dts) <;>
        simp [List.filterMap_cons, hs, hd, propParse1, propWarn1]

/-- Claim C1 is refuted as stated: with the credential supplied on the
command line, a healthy connection, and a `collection create`
invocation whose existence check (made outside the handler's try
statement, source line 225) raises a WeaviateQueryException, the
process exits 1 even though the connection did not fail and the
credential was not missing — contradicting "in every other case,
including when an SDK call inside a handler raises an exception, the
process exits 0". -/
theorem c1_counterexample :
    processExit (mainRun envCollExistsErr argsCollCreate) = 1 ∧
    connectFails envCollExistsErr = false ∧
    credMissing envCollExistsErr (mergedKey0 envCollExistsErr argsCollCreate) = false := by
  refine ⟨?_, ?_, ?_⟩ <;> decide

/-- Claim C1 (amended): for every invocation of a subcommand, the
process exits non-zero iff the connection cannot be established
(`connect_to_weaviate` fails: URL parse error, connect/startup error,
raising readiness check, or instance not ready), or the required
API-key credential is missing after checking the CLI flag, config
file, environment variables and the interactive prompt, or — the
correction — the invocation is `collection create` and its existence
check, which the source places outside the handler's try statement,
raises; in every other case, including an SDK exception raised inside
a handler's try statement, the process exits 0. -/
theorem c1_exit_nonzero_iff (env : Env) (cli : Args) :
    (processExit (mainRun env cli) != 0) =
      (credMissing env (mergedKey0 env cli) || connectFails env ||
        (isCollCreateCmd cli.cmd && existsCallRaises env)) :=
  (mainRun_spec env cli).2.2

/-- Claim C2 is refuted as stated: for the URL (and likewise the gRPC
host and port) the code consults no environment variable at all —
`main` reads `os.environ` only for the API key (source line 755).
With the CLI flag and the YAML value both absent and an environment
value present, the claimed precedence chain selects the environment
value, while the code's merge (source line 732, `finalUrlOf`) yields
`None`. -/
theorem c2_counterexample :
    finalUrlOf none none = none ∧
    claimedPrecedence none none (some "http://envhost:8080") =
      some "http://envhost:8080" ∧
    finalUrlOf none none ≠ claimedPrecedence none none (some "http://envhost:8080") := by
  refine ⟨rfl, rfl, ?_⟩
  decide

/-- Claim C2 (amended): each connection parameter is chosen by CLI
flag first, then the YAML config value (for the API key: the file's
`api_key`, else `root_key`); the environment variables
(`WEAVIATE_API_KEY`, then `WEAVIATE_ROOT_KEY`) and the interactive
prompt are consulted only for the API key, and only when the merged
value is falsy (absent or empty); a value from a higher-precedence
source is never overridden by a lower one. -/
theorem c2_precedence_amended :
    (∀ (u : String) (cfgv : Option String), finalUrlOf (some u) cfgv = some u) ∧
    (∀ cfgv : Option String, finalUrlOf none cfgv = cfgv) ∧
    (∀ (h : String) (cfgh : Option String), finalGrpcHostOf (some h) cfgh = some h) ∧
    (∀ cfgh : Option String, finalGrpcHostOf none cfgh = cfgh) ∧
    (∀ (p : Int) (cfgp : Option Int), finalGrpcPortOf (some p) cfgp = some p) ∧
    (∀ cfgp : Option Int, finalGrpcPortOf none cfgp = cfgp) ∧
    (∀ (k : String) (cfg : Config), finalApiKeyOf (some k) cfg = some k) ∧
    (∀ cfg : Config, finalApiKeyOf none cfg =
      (match cfg.api_key with
       | some v => some v
       | none => cfg.root_key)) ∧
    (∀ (env : Env) (k0 : Option String),
      (resolveRootKey env k0 false).res = expectedKeyRes env k0) :=
  ⟨fun _ _ => rfl, fun _ => rfl, fun _ _ => rfl, fun _ => rfl,
    fun _ _ => rfl, fun _ => rfl, fun _ _ => rfl, fun _ => rfl,
    fun env k0 => resolveRootKey_res env k0⟩

/-- Claim C3 is refuted as stated: in `handle_collection_create` the
`client.collections.exists` call happens before the try statement, so
its exception is not caught and the handler does not return normally. -/
theorem c3_counterexample :
    connectFails envCollExistsErr = false ∧
    (runHandler envCollExistsErr argsCollCreate false).res =
      .raised (.wqe "boom") := by
  refine ⟨?_, ?_⟩ <;> decide

/-- Claim C3 (amended): after a successful connection, every SDK
exception raised inside a handler's try statement is caught and the
handler returns normally; the single exception is the existence check
of `collection create`, which the source places outside the try and
whose exception propagates out of the handler. -/
theorem c3_handler_catches (env : Env) (a : Args)
    (h : connectFails env = false) :
    (runHandler env a false).res = expectedHandlerRes env a :=
  ((runHandler_spec env a).2.2 h).1

/-- Witness for C3: `user delete` with a raising delete call still
returns normally. -/
theorem c3_witness :
    connectFails envUserDelErr = false ∧
    (runHandler envUserDelErr (argsWith (.userDelete "bob")) false).res = .ok () := by
  have h := c3_handler_catches envUserDelErr (argsWith (.userDelete "bob")) (by decide)
  exact ⟨by decide, by rw [h]; decide⟩

/-- Claim C4: on every execution path of every invocation — handler
returning normally, SDK call raising, connection attempt failing, or
credential reading failing — every setting of the module-level client
handle is followed, later in the run, by a `.close()` call; the
process never terminates with the handle set but never closed. -/
theorem c4_connection_closed (env : Env) (cli : Args) :
    closedAfterSet (mainRun env cli).trace = true :=
  (mainRun_spec env cli).2.1

/-- Claim C5 is refuted as stated: `user create` with an existing
user_id, `--recreate-api-key` and one `--role` issues four SDK method
calls beyond the connect phase (`list_all`, `delete`, `create`,
`assign_roles`), exceeding the claimed maximum of two. -/
theorem c5_counterexample :
    domCount (runHandler envUserBob argsUserCreateRec false).trace = 4 ∧
    ¬ domCount (runHandler envUserBob argsUserCreateRec false).trace ≤ 2 := by
  refine ⟨?_, ?_⟩ <;> decide

/-- Claim C5 (amended): handlers perform connect → SDK calls → print →
disconnect, but not every handler stays within two SDK method calls:
`user create` may issue up to four, and the list/describe handlers
issue a number of calls that grows with the returned data; the
remaining handlers (collection create/delete, user delete,
user update-roles, role create/delete/get) issue at most two SDK
method calls beyond the connect phase. -/
theorem c5_at_most_two (env : Env) (a : Args) (h : cmdAtMostTwo a.cmd = true) :
    domCount (runHandler env a false).trace ≤ 2 :=
  runHandler_dom2 env a h

/-- Witness for C5: `role delete` issues at most two SDK calls. -/
theorem c5_witness :
    cmdAtMostTwo (argsWith (.roleDelete "admin")).cmd = true ∧
    domCount (runHandler envBase (argsWith (.roleDelete "admin")) false).trace ≤ 2 :=
  ⟨by decide, c5_at_most_two envBase (argsWith (.roleDelete "admin")) (by decide)⟩

/-- Claim C6: an invocation of `collection describe` that connects,
finds the collection and fetches its config exits 0 and prints the
collection's configuration as a JSON document — `json.dumps` applied
to the `to_dict()` result, or to the fallback dict when `to_dict()`
raises (`describeDocOf`). -/
theorem c6_describe_json (env : Env) (a : Args) (name : String) (v : ConfigView)
    (hcmd : a.cmd = .collDescribe name)
    (hcred : credMissing env (mergedKey0 env a) = false)
    (hconn : connectFails env = false)
    (hex : env.collExistsRes = .ok true)
    (hget : env.collGetRes = .ok ())
    (hcfg : env.collCfgFor name = .ok v) :
    processExit (mainRun env a) = 0 ∧
    Event.printMsg (.jsonOut (describeDocOf env v)) ∈ (runHandler env a false).trace := by
  constructor
  · have h := (mainRun_spec env a).2.2
    rw [hcred, hconn, hcmd] at h
    simp only [isCollCreateCmd, Bool.false_or, Bool.false_and] at h
    simpa using h
  · obtain ⟨url, rk, gh, gp, cf, rec, cmd⟩ := a
    simp only at hcmd
    subst hcmd
    obtain ⟨cgood, cok, cfail⟩ := connect_spec env url rk gh gp
    obtain ⟨hres, hcl⟩ := cok hconn
    have hstep : connect_to_weaviate env url rk gh gp false =
        ⟨.ok (), true, (connect_to_weaviate env url rk gh gp false).trace⟩ := by
      rw [step_eta (connect_to_weaviate env url rk gh gp) false, hres, hcl]
    have hbody := collDescribeBody_success env name v hex hget hcfg true
    show Event.printMsg (.jsonOut (describeDocOf env v)) ∈
      ((connect_to_weaviate env url rk gh gp >>= fun _ =>
        collDescribeBody env name) false).trace
    rw [bind_step_ok hstep, hbody]
    simp

/-- Witness for C6: a concrete healthy describe run. -/
theorem c6_witness :
    processExit (mainRun envDescribeW (argsWith (.collDescribe "Films"))) = 0 ∧
    Event.printMsg (.jsonOut (describeDocOf envDescribeW cfgViewW)) ∈
      (runHandler envDescribeW (argsWith (.collDescribe "Films")) false).trace :=
  c6_describe_json envDescribeW (argsWith (.collDescribe "Films")) "Films" cfgViewW
    rfl (by decide) (by decide) (by decide) (by decide) rfl

/-- Claim C7: every `connect_to_custom` call issued during any
invocation carries the fixed
`AdditionalConfig(timeout=(20, 120), startup_period=30)`, independent
of all CLI flags, config-file values and environment variables
(`goodCfg` holds across the whole trace, for every environment); the
second conjunct shows a connect call does occur on a healthy run. -/
theorem c7_fixed_timeout :
    (∀ (env : Env) (cli : Args), (mainRun env cli).trace.all goodCfg = true) ∧
    (mainRun envBase (argsWith (.collList false))).trace.any isConnectEv = true :=
  ⟨fun env cli => (mainRun_spec env cli).1, by decide⟩

/-- Claim C8: for `collection delete`, `user delete` and
`role delete`, unless the interactive confirmation, lowercased, is
exactly "yes", the handler issues no SDK delete call at all. -/
theorem c8_confirm_gate (env : Env) (a : Args)
    (hcmd : isDeleteCmd a.cmd = true)
    (hc : (strLower env.confirmInput == "yes") = false) :
    hasDeleteCall (runHandler env a false).trace = false := by
  obtain ⟨url, rk, gh, gp, cf, rec, cmd⟩ := a
  cases cmd with
  | collDelete name =>
    refine connect_bind_nodel env url rk gh gp (fun c => ?_)
    rw [collDeleteBody_cancel env name hc c]
    rfl
  | userDelete u =>
    refine connect_bind_nodel env url rk gh gp (fun c => ?_)
    rw [userDeleteBody_cancel env u hc c]
    rfl
  | roleDelete rn =>
    refine connect_bind_nodel env url rk gh gp (fun c => ?_)
    rw [roleDeleteBody_cancel env rn hc c]
    rfl
  | collCreate n d pr v vo vs rf sh => simp [isDeleteCmd] at hcmd
  | collList detailed => simp [isDeleteCmd] at hcmd
  | collDescribe n => simp [isDeleteCmd] at hcmd
  | userCreate u role => simp [isDeleteCmd] at hcmd
  | userList => simp [isDeleteCmd] at hcmd
  | userUpdateRoles u role => simp [isDeleteCmd] at hcmd
  | roleCreate rn cp adC adR adU adD acC acR acU acD => simp [isDeleteCmd] at hcmd
  | roleGet rn => simp [isDeleteCmd] at hcmd
  | roleList detailed => simp [isDeleteCmd] at hcmd

/-- Witness for C8: answering "no" to collection delete issues no
delete call. -/
theorem c8_witness :
    isDeleteCmd (argsWith (.collDelete "Films")).cmd = true ∧
    (strLower envConfirmNo.confirmInput == "yes") = false ∧
    hasDeleteCall (runHandler envConfirmNo (argsWith (.collDelete "Films")) false).trace = false :=
  ⟨by decide, by decide,
    c8_confirm_gate envConfirmNo (argsWith (.collDelete "Films")) (by decide) (by decide)⟩

/-- Claim C9: the gRPC host is the `--grpc-host` value when one is
given (a non-empty string; Python truthiness makes an empty string
fall back), otherwise the HTTP host; the gRPC port is the
`--grpc-port` value when given, otherwise 50051; the gRPC secure flag
is true for port 443, false for port 80, and otherwise equals the
HTTP secure flag; and the HTTP secure flag produced by
`parse_http_url_details` is true iff the URL scheme, lowercased, is
`https`. -/
theorem c9_grpc_derivation (h H : String) (p : Int) (sec : Bool) (u : ParsedUrl)
    (hh : String) (pp : Int) (ss : Bool) :
    (h ≠ "" → grpcHostOf (some h) H = h) ∧
    grpcHostOf none H = H ∧
    grpcPortOf (some p) = p ∧
    grpcPortOf none = 50051 ∧
    grpcSecureOf (some 443) sec = true ∧
    grpcSecureOf (some 80) sec = false ∧
    (p ≠ 443 → p ≠ 80 → grpcSecureOf (some p) sec = sec) ∧
    grpcSecureOf none sec = sec ∧
    (parse_http_url_details u = .ok (hh, pp, ss) →
      ss = (strLower u.scheme == "https")) := by
  refine ⟨?_, rfl, rfl, rfl, by simp [grpcSecureOf], by simp [grpcSecureOf], ?_, rfl, ?_⟩
  · intro hne
    simp [grpcHostOf, hne]
  · intro h443 h80
    simp [grpcSecureOf, h443, h80]
  · intro hp
    exact parse_secure u hh pp ss hp

/-- Witness for C9: concrete derivations, including an uppercase
`HTTPS` scheme. -/
theorem c9_witness :
    grpcHostOf (some "grpchost") "httphost" = "grpchost" ∧
    grpcSecureOf (some 9443) true = true ∧
    (true = (strLower "HTTPS" == "https")) := by
  have h := c9_grpc_derivation "grpchost" "httphost" 9443 true
    ⟨"HTTPS", some "example.com", none⟩ "example.com" 443 true
  refine ⟨h.1 (by decide), h.2.2.2.2.2.2.1 (by decide) (by decide), ?_⟩
  exact h.2.2.2.2.2.2.2.2 (by decide)

/-- Claim C10: `parse_properties_v4` returns exactly the entries, in
input order, that contain a colon and whose data-type part, uppercased,
names a known data type (one of the fifteen members the source lists,
or any further enum attribute the `getattr` fallback finds); each
skipped entry produces exactly one warning rather than aborting; and
the result is `None` for `None`, an empty list, or no valid entry. -/
theorem c10_parse_properties (sdkAttr : String → Option DataType) (l : List String) :
    parse_properties_v4 sdkAttr none = (none, []) ∧
    parse_properties_v4 sdkAttr (some []) = (none, []) ∧
    (parse_properties_v4 sdkAttr (some l)).1 =
      (if l.filterMap (propParse1 sdkAttr) = [] then none
       else some (l.filterMap (propParse1 sdkAttr))) ∧
    (parse_properties_v4 sdkAttr (some l)).2 = l.filterMap (propWarn1 sdkAttr) := by
  refine ⟨rfl, rfl, ?_, ?_⟩
  · cases l with
    | nil => simp [parse_properties_v4]
    | cons p rest =>
      have hred : parse_properties_v4 sdkAttr (some (p :: rest)) =
          ((if (parsePropsLoop sdkAttr (p :: rest)).1.isEmpty then none
            else some (parsePropsLoop sdkAttr (p :: rest)).1),
           (parsePropsLoop sdkAttr (p :: rest)).2) := rfl
      rw [hred, parsePropsLoop_eq]
      by_cases he : ((p :: rest).filterMap (propParse1 sdkAttr)) = [] <;>
        simp [he, List.isEmpty_iff]
  · cases l with
    | nil => simp [parse_properties_v4]
    | cons p rest =>
      have hred : parse_properties_v4 sdkAttr (some (p :: rest)) =
          ((if (parsePropsLoop sdkAttr (p :: rest)).1.isEmpty then none
            else some (parsePropsLoop sdkAttr (p :: rest)).1),
           (parsePropsLoop sdkAttr (p :: rest)).2) := rfl
      rw [hred, parsePropsLoop_eq]
